import Mathlib

/-!
Verification of the UBX protocol handler of PyGPSClient
(`pygpsclient/ubx_handler.py` and the spoofing/jamming display of
`pygpsclient/spanview_frame.py`).

The Python code is shallowly embedded: the mutable `UBXHandler` instance
state becomes an explicit `UBXState` record, every external sink call
(console, banner, map view, satellite view, span view, config panel,
track recorder) becomes an event appended to a trace, and Python
exceptions become an error component threaded through a small
state-trace-exception monad `PyM`.  Field accesses on a parsed message
are values of type `FV α = Except PyErr α`, so a missing attribute or a
malformed numeric conversion is representable at each access site.
-/

/-- Python exception kinds relevant to the handler code. -/
inductive PyErr where
  | valueError
  | attributeError
  | checksumError
  | unboundLocalError
  deriving DecidableEq, Repr

/-- Result of reading one attribute of a parsed message: the decoded value,
or the exception that the access raises. -/
def FV (α : Type) : Type := Except PyErr α

instance (α : Type) [DecidableEq α] : DecidableEq (FV α) := fun a b =>
  match a, b with
  | .ok x, .ok y =>
    if h : x = y then .isTrue (by rw [h]) else .isFalse (by intro hc; cases hc; exact h rfl)
  | .ok _, .error _ => .isFalse (by intro hc; cases hc)
  | .error _, .ok _ => .isFalse (by intro hc; cases hc)
  | .error e, .error e' =>
    if h : e = e' then .isTrue (by rw [h]) else .isFalse (by intro hc; cases hc; exact h rfl)

/-- A satellite record appended to `gsv_data`:
the tuple `(gnssId, svid, elev, azim, cno)` from the source. -/
structure SatRec where
  gnssId : Int
  svid : Int
  elev : Int
  azim : Int
  cno : Int
  deriving DecidableEq, Repr

/-- The mutable fields of the `UBXHandler` instance (`__init__`). -/
structure UBXState where
  gsv_data : List SatRec
  lon : Rat
  lat : Rat
  alt : Rat
  track : Rat
  speed : Rat
  pdop : Rat
  hdop : Rat
  vdop : Rat
  hacc : Rat
  vacc : Rat
  utc : String
  sip : Int
  fix : String
  deriving DecidableEq, Repr

/-- The initial handler state set by `UBXHandler.__init__`. -/
def initState : UBXState :=
  { gsv_data := [], lon := 0, lat := 0, alt := 0, track := 0, speed := 0
    pdop := 0, hdop := 0, vdop := 0, hacc := 0, vacc := 0
    utc := "", sip := 0, fix := "-" }

/-- Read-only configuration consumed by the handler: the display-mode flag
`frm_settings.raw`, the track recording flag `frm_settings.record_track`,
the zero-signal display flag `frm_settings.show_zero`, the module-level
`GLONASS_NMEA` flag from `globals.py`, and whether the UBX config dialog
`dlg_ubxconfig` is present. -/
structure Cfg where
  raw : Bool
  record_track : Bool
  show_zero : Bool
  glonass_nmea : Bool
  dlgPresent : Bool
  deriving DecidableEq, Repr

/-- Keyword arguments of a `frm_banner.update_banner` call; an absent
keyword is `none`. -/
structure BannerArgs where
  time : Option String := none
  lat : Option Rat := none
  lon : Option Rat := none
  alt : Option Rat := none
  hacc : Option Rat := none
  vacc : Option Rat := none
  dop : Option Rat := none
  hdop : Option Rat := none
  vdop : Option Rat := none
  sip : Option Int := none
  speed : Option Rat := none
  fix : Option String := none
  track : Option Rat := none
  siv : Option Nat := none
  deriving DecidableEq, Repr

/-- One call made by the handler to an external sink. -/
inductive SinkCall where
  | console (raw : Bool)
  | banner (args : BannerArgs)
  | mapview (lat lon hacc : Rat) (fix : Option String)
  | satview (sats : List SatRec)
  | graphview (sats : List SatRec) (siv : Nat)
  | spanSpoof (spoof : Nat)
  | spanJamming (jamState : Nat) (jamInd : Int)
  | spanUpdate (spectra : List Int) (center : Int) (span : Int)
  | configPanel (msgtype : String)
  | trackpoint (lat lon ele : Rat) (time : String) (fix : String)
      (sat : Option Int) (pdop : Option Rat)
  deriving DecidableEq, Repr

/-- The state-trace-exception monad in which handler bodies are written:
a computation reads and writes the handler state, appends sink calls to
the trace, and either produces a value or raises a Python exception
(leaving the state and trace as they were at the raise point, exactly as
mutations of `self` persist across an exception in Python). -/
def PyM (α : Type) : Type :=
  UBXState → List SinkCall → UBXState × List SinkCall × FV α

/-- Computation returning a pure value. -/
def ppure {α : Type} (a : α) : PyM α := fun st tr => (st, tr, .ok a)

/-- Sequencing: run `x`; on success feed its value to `f`, on an exception
propagate it with the state and trace at the raise point. -/
def pbind {α β : Type} (x : PyM α) (f : α → PyM β) : PyM β := fun st tr =>
  match x st tr with
  | (st1, tr1, .ok a) => f a st1 tr1
  | (st1, tr1, .error e) => (st1, tr1, .error e)

/-- Read one message attribute (`data.field`). -/
def getF {α : Type} (v : FV α) : PyM α := fun st tr => (st, tr, v)

/-- Lift a fallible pure computation (such as a CPython library call). -/
def getE {α : Type} (v : Except PyErr α) : PyM α := fun st tr => (st, tr, v)

/-- Assignment to a field of `self`. -/
def modifySt (f : UBXState → UBXState) : PyM Unit := fun st tr => (f st, tr, .ok ())

/-- Emit a sink call computed from the current state. -/
def emitWith (f : UBXState → SinkCall) : PyM Unit := fun st tr =>
  (st, tr ++ [f st], .ok ())

/-- Emit a fixed sink call. -/
def emit (c : SinkCall) : PyM Unit := fun st tr => (st, tr ++ [c], .ok ())

/-- Raise a Python exception. -/
def pyRaise {α : Type} (e : PyErr) : PyM α := fun st tr => (st, tr, .error e)

/-- Continue with the current state in scope (used for conditions that read
`self`). -/
def withSt {α : Type} (k : UBXState → PyM α) : PyM α := fun st tr => k st st tr

/-- The statement `try: body except ValueError: pass` of the source:
a `ValueError` raised by the body is swallowed, leaving the mutations and
sink calls made before the raise in place; any other exception
propagates. -/
def tryVE (x : PyM Unit) : PyM Unit := fun st tr =>
  match x st tr with
  | (st1, tr1, .error .valueError) => (st1, tr1, .ok ())
  | r => r

/-- Number of console-sink calls in a trace. -/
def countConsole (tr : List SinkCall) : Nat :=
  (tr.filter fun c => match c with | .console _ => true | _ => false).length

/-- Modelled from the spec: `pyubx2.ubxhelpers.itow2utc` (the pyubx2
library is not part of this repository).  It converts a GPS time of week
in milliseconds to a UTC time-of-day string; the claims never inspect the
produced text, only that the state field `utc` receives it. -/
def itow2utc (itow : Int) : String :=
  let s := (itow / 1000) % 86400
  toString (s / 3600) ++ ":" ++ toString ((s % 3600) / 60) ++ ":" ++ toString (s % 60)

/-- Modelled from the spec: `pyubx2.ubxhelpers.gpsfix2str` (pyubx2 is not
part of this repository).  Per spec section 4.3 the fix-type decoding is a
total map from the integer code to a label, unmapped codes giving a safe
"-" default. -/
def gpsfix2str (fix : Int) : String :=
  if fix == 0 then "NO FIX"
  else if fix == 1 then "DR"
  else if fix == 2 then "2D"
  else if fix == 3 then "3D"
  else if fix == 4 then "GPS + DR"
  else if fix == 5 then "TIME"
  else "-"

/-- Modelled from the spec: `helpers.svid2gnssid` (`helpers.py` is not
part of this repository).  Per spec section 4.4, distinct numeric ranges
of a combined satellite id map to distinct GNSS systems; in particular the
GLONASS range is the NMEA-style 65 to 96 band. -/
def svid2gnssid (svid : Int) : Int :=
  if 120 ≤ svid ∧ svid ≤ 158 then 1
  else if 211 ≤ svid ∧ svid ≤ 246 then 2
  else if (159 ≤ svid ∧ svid ≤ 163) ∨ (33 ≤ svid ∧ svid ≤ 64) then 3
  else if 173 ≤ svid ∧ svid ≤ 182 then 4
  else if 193 ≤ svid ∧ svid ≤ 202 then 5
  else if (65 ≤ svid ∧ svid ≤ 96) ∨ svid == 255 then 6
  else 0

/-- The GLONASS slot-to-NMEA renumbering step of `_process_NAV_SAT`
(lines 390 to 391): `if gnssId == 6 and svid < 25 and svid != 255 and
GLONASS_NMEA: svid += 64`. -/
def glonassRemapSvid (glonassNmea : Bool) (gnssId svid : Int) : Int :=
  if gnssId == 6 && svid < 25 && svid != 255 && glonassNmea then svid + 64 else svid

/-- A numeric value compared against the empty string, as in the source
condition `self.lat != ""`: in Python a number is never equal to a
string, so the comparison is true for every numeric value. -/
def numNeEmptyStr (_x : Rat) : Bool := true

/-- Leap year test of the proleptic Gregorian calendar used by CPython
`datetime`. -/
def isLeap (y : Int) : Bool := (y % 4 == 0 && y % 100 != 0) || y % 400 == 0

/-- Days in a month per CPython `datetime`. -/
def daysInMonth (y mo : Int) : Int :=
  if mo == 2 then (if isLeap y then 29 else 28)
  else if mo == 4 || mo == 6 || mo == 9 || mo == 11 then 30
  else 31

/-- Zero-padded two-digit rendering of a field value in 0 to 99. -/
def pad2 (n : Int) : String := if n < 10 then "0" ++ toString n else toString n

/-- Zero-padded four-digit rendering of a year in 1 to 9999. -/
def pad4 (n : Int) : String :=
  if n < 10 then "000" ++ toString n
  else if n < 100 then "00" ++ toString n
  else if n < 1000 then "0" ++ toString n
  else toString n

/-- Modelled from the spec: the CPython expression
`datetime(year, month, day, hour, minute, second).isoformat()` used by the
track recording block.  Out-of-range components raise `ValueError`; valid
components produce the ISO-8601 text. -/
def pyDatetimeIso (y mo d h mi s : Int) : Except PyErr String :=
  if 1 ≤ y ∧ y ≤ 9999 ∧ 1 ≤ mo ∧ mo ≤ 12 ∧ 1 ≤ d ∧ d ≤ daysInMonth y mo
      ∧ 0 ≤ h ∧ h ≤ 23 ∧ 0 ≤ mi ∧ mi ≤ 59 ∧ 0 ≤ s ∧ s ≤ 59 then
    .ok (pad4 y ++ "-" ++ pad2 mo ++ "-" ++ pad2 d ++ "T"
      ++ pad2 h ++ ":" ++ pad2 mi ++ ":" ++ pad2 s)
  else
    .error .valueError

/-- Fields of a parsed NAV-POSLLH message read by `_process_NAV_POSLLH`. -/
structure NavPosllhFields where
  iTOW : FV Int
  lat : FV Int
  lon : FV Int
  hMSL : FV Int
  hAcc : FV Int
  vAcc : FV Int
  deriving DecidableEq

/-- Fields of a parsed NAV-PVT message read by `_process_NAV_PVT`. -/
structure NavPvtFields where
  iTOW : FV Int
  lat : FV Int
  lon : FV Int
  hMSL : FV Int
  hAcc : FV Int
  vAcc : FV Int
  pDOP : FV Int
  numSV : FV Int
  gSpeed : FV Int
  headMot : FV Int
  fixType : FV Int
  year : FV Int
  month : FV Int
  day : FV Int
  hour : FV Int
  min : FV Int
  second : FV Int
  deriving DecidableEq

/-- Fields of a parsed NAV-VELNED message read by `_process_NAV_VELNED`. -/
structure NavVelnedFields where
  heading : FV Int
  gSpeed : FV Int
  deriving DecidableEq

/-- One repeating-group channel of a NAV-SAT message: the attributes
`gnssId_NN`, `svId_NN`, `elev_NN`, `azim_NN`, `cno_NN`. -/
structure SatChan where
  gnssId : Int
  svid : Int
  elev : Int
  azim : Int
  cno : Int
  deriving DecidableEq, Repr

/-- Fields of a parsed NAV-SAT message: the count `numCh` and the decoded
repeating group, indexed so that the i-th loop iteration reads entry i. -/
structure NavSatFields where
  numCh : FV Int
  chans : List SatChan
  deriving DecidableEq

/-- One repeating-group channel of a legacy NAV-SVINFO message: the
attributes `svid_NN`, `elev_NN`, `azim_NN`, `cno_NN` (no gnssId). -/
structure SvChan where
  svid : Int
  elev : Int
  azim : Int
  cno : Int
  deriving DecidableEq, Repr

/-- Fields of a parsed NAV-SVINFO message. -/
structure NavSvinfoFields where
  numCh : FV Int
  chans : List SvChan
  deriving DecidableEq

/-- Fields of a parsed NAV-SOL message read by `_process_NAV_SOL`. -/
structure NavSolFields where
  pDOP : FV Int
  numSV : FV Int
  gpsFix : FV Int
  deriving DecidableEq

/-- Fields of a parsed NAV-DOP message read by `_process_NAV_DOP`. -/
structure NavDopFields where
  pDOP : FV Int
  hDOP : FV Int
  vDOP : FV Int
  deriving DecidableEq

/-- Fields of a parsed HNR-PVT message read by `_process_HNR_PVT`. -/
structure HnrPvtFields where
  iTOW : FV Int
  lat : FV Int
  lon : FV Int
  hMSL : FV Int
  hAcc : FV Int
  vAcc : FV Int
  gSpeed : FV Int
  headMot : FV Int
  gpsFix : FV Int
  year : FV Int
  month : FV Int
  day : FV Int
  hour : FV Int
  min : FV Int
  second : FV Int
  deriving DecidableEq

/-- Fields of a parsed NAV-STATUS message read by `_process_NAV_STATUS`:
the first byte of the `flags2` bytes object (`data.flags2[0]`, a value in
0 to 255). -/
structure NavStatusFields where
  flags2 : FV Nat
  deriving DecidableEq

/-- Fields of a parsed MON-RF message read by `_process_MON_RF`: the first
byte of `flags_01` and the jamming level `jamInd_01`. -/
structure MonRfFields where
  flags_01 : FV Nat
  jamInd_01 : FV Int
  deriving DecidableEq

/-- Fields of a parsed MON-SPAN message read by `_process_MON_SPAN`: the
spectrum bins `spectrum_01_001` to `spectrum_01_256` (indexed so that the
i-th read takes entry i) and `center_01`, `span_01`. -/
structure MonSpanFields where
  spectrum : List (FV Int)
  center_01 : FV Int
  span_01 : FV Int
  deriving DecidableEq

/-- A decoded message as produced by `UBXReader.parse`: one constructor
per message type handled by the dispatch chain, plus `unknown` for any
other identity (valid protocol traffic with no handler). -/
inductive Msg where
  | ackAck
  | ackNak
  | cfgMsg
  | cfgPrt
  | cfgRate
  | cfgInf
  | cfgValget
  | navPosllh (f : NavPosllhFields)
  | navPvt (f : NavPvtFields)
  | navVelned (f : NavVelnedFields)
  | navSat (f : NavSatFields)
  | navSvinfo (f : NavSvinfoFields)
  | navSol (f : NavSolFields)
  | navDop (f : NavDopFields)
  | hnrPvt (f : HnrPvtFields)
  | monVer
  | monHw
  | navStatus (f : NavStatusFields)
  | monRf (f : MonRfFields)
  | monSpan (f : MonSpanFields)
  | unknown (ident : String)
  deriving DecidableEq

/-- The `identity` attribute of a parsed message. -/
def Msg.identity : Msg → String
  | .ackAck => "ACK-ACK"
  | .ackNak => "ACK-NAK"
  | .cfgMsg => "CFG-MSG"
  | .cfgPrt => "CFG-PRT"
  | .cfgRate => "CFG-RATE"
  | .cfgInf => "CFG-INF"
  | .cfgValget => "CFG-VALGET"
  | .navPosllh _ => "NAV-POSLLH"
  | .navPvt _ => "NAV-PVT"
  | .navVelned _ => "NAV-VELNED"
  | .navSat _ => "NAV-SAT"
  | .navSvinfo _ => "NAV-SVINFO"
  | .navSol _ => "NAV-SOL"
  | .navDop _ => "NAV-DOP"
  | .hnrPvt _ => "HNR-PVT"
  | .monVer => "MON-VER"
  | .monHw => "MON-HW"
  | .navStatus _ => "NAV-STATUS"
  | .monRf _ => "MON-RF"
  | .monSpan _ => "MON-SPAN"
  | .unknown s => s

/-- Body of the config-panel handlers: `update_pending` on the UBX config
dialog is called only when the dialog is present (`dlg_ubxconfig is not
None`); these handlers are modelled at the level of that sink call. -/
def cfgPanelBody (name : String) (cfg : Cfg) : PyM Unit :=
  if cfg.dlgPresent then emit (.configPanel name) else ppure ()

/-- Handler for ACK-ACK (source lines 131 to 144). -/
def _process_ACK_ACK (m : Msg) (cfg : Cfg) : PyM Unit :=
  match m with
  | .ackAck => cfgPanelBody "ACK-ACK" cfg
  | _ => pyRaise .attributeError

/-- Handler for ACK-NAK (source lines 146 to 159). -/
def _process_ACK_NAK (m : Msg) (cfg : Cfg) : PyM Unit :=
  match m with
  | .ackNak => cfgPanelBody "ACK-NAK" cfg
  | _ => pyRaise .attributeError

/-- Handler for CFG-MSG (source lines 161 to 186). -/
def _process_CFG_MSG (m : Msg) (cfg : Cfg) : PyM Unit :=
  match m with
  | .cfgMsg => cfgPanelBody "CFG-MSG" cfg
  | _ => pyRaise .attributeError

/-- Handler for CFG-PRT (source lines 199 to 214). -/
def _process_CFG_PRT (m : Msg) (cfg : Cfg) : PyM Unit :=
  match m with
  | .cfgPrt => cfgPanelBody "CFG-PRT" cfg
  | _ => pyRaise .attributeError

/-- Handler for CFG-RATE (source lines 216 to 230). -/
def _process_CFG_RATE (m : Msg) (cfg : Cfg) : PyM Unit :=
  match m with
  | .cfgRate => cfgPanelBody "CFG-RATE" cfg
  | _ => pyRaise .attributeError

/-- Handler for CFG-INF (source lines 188 to 197). -/
def _process_CFG_INF (m : Msg) (cfg : Cfg) : PyM Unit :=
  match m with
  | .cfgInf => cfgPanelBody "CFG-INF" cfg
  | _ => pyRaise .attributeError

/-- Handler for CFG-VALGET (source lines 232 to 244). -/
def _process_CFG_VALGET (m : Msg) (cfg : Cfg) : PyM Unit :=
  match m with
  | .cfgValget => cfgPanelBody "CFG-VALGET" cfg
  | _ => pyRaise .attributeError

/-- Handler for MON-VER (source lines 804 to 856); its body is wrapped in
`try: ... except ValueError: pass`. -/
def _process_MON_VER (m : Msg) (cfg : Cfg) : PyM Unit :=
  match m with
  | .monVer => tryVE (cfgPanelBody "MON-VER" cfg)
  | _ => pyRaise .attributeError

/-- Handler for MON-HW (source lines 858 to 873). -/
def _process_MON_HW (m : Msg) (cfg : Cfg) : PyM Unit :=
  match m with
  | .monHw => cfgPanelBody "MON-HW" cfg
  | _ => pyRaise .attributeError

/-- Body of `_process_NAV_POSLLH` (source lines 253 to 269), statement by
statement. -/
def bodyNAV_POSLLH (f : NavPosllhFields) : PyM Unit :=
  pbind (getF f.iTOW) fun itow =>
  pbind (modifySt fun st => { st with utc := itow2utc itow }) fun _ =>
  pbind (getF f.lat) fun la =>
  pbind (modifySt fun st => { st with lat := (la : Rat) / 10 ^ 7 }) fun _ =>
  pbind (getF f.lon) fun lo =>
  pbind (modifySt fun st => { st with lon := (lo : Rat) / 10 ^ 7 }) fun _ =>
  pbind (getF f.hMSL) fun hm =>
  pbind (modifySt fun st => { st with alt := (hm : Rat) / 1000 }) fun _ =>
  pbind (getF f.hAcc) fun ha =>
  pbind (modifySt fun st => { st with hacc := (ha : Rat) / 1000 }) fun _ =>
  pbind (getF f.vAcc) fun va =>
  pbind (modifySt fun st => { st with vacc := (va : Rat) / 1000 }) fun _ =>
  pbind (emitWith fun st =>
    .banner
      { time := some st.utc, lat := some st.lat, lon := some st.lon,
        alt := some st.alt, hacc := some st.hacc, vacc := some st.vacc }) fun _ =>
  emitWith fun st => .mapview st.lat st.lon st.hacc none

/-- Handler for NAV-POSLLH: the body under `try: ... except ValueError`. -/
def _process_NAV_POSLLH (m : Msg) (_cfg : Cfg) : PyM Unit :=
  match m with
  | .navPosllh f => tryVE (bodyNAV_POSLLH f)
  | _ => pyRaise .attributeError

/-- Body of `_process_NAV_PVT` (source lines 282 to 340), statement by
statement, including the track recording block. -/
def bodyNAV_PVT (f : NavPvtFields) (cfg : Cfg) : PyM Unit :=
  pbind (getF f.iTOW) fun itow =>
  pbind (modifySt fun st => { st with utc := itow2utc itow }) fun _ =>
  pbind (getF f.lat) fun la =>
  pbind (modifySt fun st => { st with lat := (la : Rat) / 10 ^ 7 }) fun _ =>
  pbind (getF f.lon) fun lo =>
  pbind (modifySt fun st => { st with lon := (lo : Rat) / 10 ^ 7 }) fun _ =>
  pbind (getF f.hMSL) fun hm =>
  pbind (modifySt fun st => { st with alt := (hm : Rat) / 1000 }) fun _ =>
  pbind (getF f.hAcc) fun ha =>
  pbind (modifySt fun st => { st with hacc := (ha : Rat) / 1000 }) fun _ =>
  pbind (getF f.vAcc) fun va =>
  pbind (modifySt fun st => { st with vacc := (va : Rat) / 1000 }) fun _ =>
  pbind (getF f.pDOP) fun pd =>
  pbind (modifySt fun st => { st with pdop := (pd : Rat) / 100 }) fun _ =>
  pbind (getF f.numSV) fun ns =>
  pbind (modifySt fun st => { st with sip := ns }) fun _ =>
  pbind (getF f.gSpeed) fun gs =>
  pbind (modifySt fun st => { st with speed := (gs : Rat) / 1000 }) fun _ =>
  pbind (getF f.headMot) fun hd =>
  pbind (modifySt fun st => { st with track := (hd : Rat) / 10 ^ 5 }) fun _ =>
  pbind (getF f.fixType) fun ft =>
  let fix := gpsfix2str ft
  pbind (emitWith fun st =>
    .banner
      { time := some st.utc, lat := some st.lat, lon := some st.lon,
        alt := some st.alt, hacc := some st.hacc, vacc := some st.vacc,
        dop := some st.pdop, sip := some st.sip, speed := some st.speed,
        fix := some fix, track := some st.track }) fun _ =>
  pbind (emitWith fun st => .mapview st.lat st.lon st.hacc (some fix)) fun _ =>
  withSt fun st0 =>
  if cfg.record_track && numNeEmptyStr st0.lat && numNeEmptyStr st0.lon then
    pbind (getF f.year) fun yr =>
    pbind (getF f.month) fun mo =>
    pbind (getF f.day) fun dy =>
    pbind (getF f.hour) fun hr =>
    pbind (getF f.min) fun mi =>
    pbind (getF f.second) fun sc =>
    pbind (getE (pyDatetimeIso yr mo dy hr mi sc)) fun iso =>
    let time := iso ++ "Z"
    let fix2 := if fix == "3D" then "3d" else if fix == "2D" then "2d" else "none"
    emitWith fun st =>
      .trackpoint st.lat st.lon st.alt time fix2 (some st.sip) (some st.pdop)
  else ppure ()

/-- Handler for NAV-PVT: the body under `try: ... except ValueError`. -/
def _process_NAV_PVT (m : Msg) (cfg : Cfg) : PyM Unit :=
  match m with
  | .navPvt f => tryVE (bodyNAV_PVT f cfg)
  | _ => pyRaise .attributeError

/-- Handler for NAV-STATUS (source lines 345 to 352).  Note that this
handler has no `try: ... except` wrapper. -/
def _process_NAV_STATUS (m : Msg) (_cfg : Cfg) : PyM Unit :=
  match m with
  | .navStatus f =>
    pbind (getF f.flags2) fun fl =>
    emit (.spanSpoof (fl / 8))
  | _ => pyRaise .attributeError

/-- Body of `_process_NAV_VELNED` (source lines 361 to 364). -/
def bodyNAV_VELNED (f : NavVelnedFields) : PyM Unit :=
  pbind (getF f.heading) fun hd =>
  pbind (modifySt fun st => { st with track := (hd : Rat) / 10 ^ 5 }) fun _ =>
  pbind (getF f.gSpeed) fun gs =>
  pbind (modifySt fun st => { st with speed := (gs : Rat) / 100 }) fun _ =>
  emitWith fun st => .banner { speed := some st.speed, track := some st.track }

/-- Handler for NAV-VELNED: the body under `try: ... except ValueError`. -/
def _process_NAV_VELNED (m : Msg) (_cfg : Cfg) : PyM Unit :=
  match m with
  | .navVelned f => tryVE (bodyNAV_VELNED f)
  | _ => pyRaise .attributeError

/-- The repeating-group loop of `_process_NAV_SAT` (source lines 385 to
399), iterating from channel index `i` for `cnt` further iterations:
each iteration reads the channel attributes (a missing channel raises
`AttributeError`), applies the GLONASS renumbering, and appends the record
unless the zero-signal filter drops it.  The first component is the list
of records appended before any failure; the second is the exception
raised, if any. -/
def navSatScan (showZero glonassNmea : Bool) (chans : List SatChan) :
    Nat → Nat → List SatRec × Option PyErr
  | _, 0 => ([], none)
  | i, cnt + 1 =>
    match chans[i]? with
    | none => ([], some .attributeError)
    | some c =>
      let svid := glonassRemapSvid glonassNmea c.gnssId c.svid
      if c.cno == 0 && !showZero then
        navSatScan showZero glonassNmea chans (i + 1) cnt
      else
        let rest := navSatScan showZero glonassNmea chans (i + 1) cnt
        (⟨c.gnssId, svid, c.elev, c.azim, c.cno⟩ :: rest.1, rest.2)

/-- Body of `_process_NAV_SAT` (source lines 381 to 402): clear
`gsv_data`, read `numCh`, run the repeating-group loop, then call the
banner, satellite-view and graph-view sinks. -/
def bodyNAV_SAT (f : NavSatFields) (cfg : Cfg) : PyM Unit :=
  pbind (modifySt fun st => { st with gsv_data := [] }) fun _ =>
  pbind (getF f.numCh) fun n =>
  let scan := navSatScan cfg.show_zero cfg.glonass_nmea f.chans 0 n.toNat
  pbind (modifySt fun st => { st with gsv_data := scan.1 }) fun _ =>
  match scan.2 with
  | some e => pyRaise e
  | none =>
    pbind (emitWith fun st => .banner { siv := some st.gsv_data.length }) fun _ =>
    pbind (emitWith fun st => .satview st.gsv_data) fun _ =>
    emitWith fun st => .graphview st.gsv_data st.gsv_data.length

/-- Handler for NAV-SAT: the body under `try: ... except ValueError`. -/
def _process_NAV_SAT (m : Msg) (cfg : Cfg) : PyM Unit :=
  match m with
  | .navSat f => tryVE (bodyNAV_SAT f cfg)
  | _ => pyRaise .attributeError

/-- The repeating-group loop of `_process_NAV_SVINFO` (source lines 420 to
431): the legacy layout carries no gnssId, which is instead derived from
the combined svid by `svid2gnssid`; no GLONASS renumbering is applied. -/
def navSvinfoScan (showZero : Bool) (chans : List SvChan) :
    Nat → Nat → List SatRec × Option PyErr
  | _, 0 => ([], none)
  | i, cnt + 1 =>
    match chans[i]? with
    | none => ([], some .attributeError)
    | some c =>
      let gnssId := svid2gnssid c.svid
      if c.cno == 0 && !showZero then
        navSvinfoScan showZero chans (i + 1) cnt
      else
        let rest := navSvinfoScan showZero chans (i + 1) cnt
        (⟨gnssId, c.svid, c.elev, c.azim, c.cno⟩ :: rest.1, rest.2)

/-- Body of `_process_NAV_SVINFO` (source lines 416 to 434). -/
def bodyNAV_SVINFO (f : NavSvinfoFields) (cfg : Cfg) : PyM Unit :=
  pbind (modifySt fun st => { st with gsv_data := [] }) fun _ =>
  pbind (getF f.numCh) fun n =>
  let scan := navSvinfoScan cfg.show_zero f.chans 0 n.toNat
  pbind (modifySt fun st => { st with gsv_data := scan.1 }) fun _ =>
  match scan.2 with
  | some e => pyRaise e
  | none =>
    pbind (emitWith fun st => .banner { siv := some st.gsv_data.length }) fun _ =>
    pbind (emitWith fun st => .satview st.gsv_data) fun _ =>
    emitWith fun st => .graphview st.gsv_data st.gsv_data.length

/-- Handler for NAV-SVINFO: the body under `try: ... except ValueError`. -/
def _process_NAV_SVINFO (m : Msg) (cfg : Cfg) : PyM Unit :=
  match m with
  | .navSvinfo f => tryVE (bodyNAV_SVINFO f cfg)
  | _ => pyRaise .attributeError

/-- Body of `_process_NAV_SOL` (source lines 446 to 451). -/
def bodyNAV_SOL (f : NavSolFields) : PyM Unit :=
  pbind (getF f.pDOP) fun pd =>
  pbind (modifySt fun st => { st with pdop := (pd : Rat) / 100 }) fun _ =>
  pbind (getF f.numSV) fun ns =>
  pbind (modifySt fun st => { st with sip := ns }) fun _ =>
  pbind (getF f.gpsFix) fun gf =>
  let fix := gpsfix2str gf
  emitWith fun st =>
    .banner { dop := some st.pdop, fix := some fix, sip := some st.sip }

/-- Handler for NAV-SOL: the body under `try: ... except ValueError`. -/
def _process_NAV_SOL (m : Msg) (_cfg : Cfg) : PyM Unit :=
  match m with
  | .navSol f => tryVE (bodyNAV_SOL f)
  | _ => pyRaise .attributeError

/-- Body of `_process_NAV_DOP` (source lines 463 to 470). -/
def bodyNAV_DOP (f : NavDopFields) : PyM Unit :=
  pbind (getF f.pDOP) fun pd =>
  pbind (modifySt fun st => { st with pdop := (pd : Rat) / 100 }) fun _ =>
  pbind (getF f.hDOP) fun hd =>
  pbind (modifySt fun st => { st with hdop := (hd : Rat) / 100 }) fun _ =>
  pbind (getF f.vDOP) fun vd =>
  pbind (modifySt fun st => { st with vdop := (vd : Rat) / 100 }) fun _ =>
  emitWith fun st =>
    .banner { dop := some st.pdop, hdop := some st.hdop, vdop := some st.vdop }

/-- Handler for NAV-DOP: the body under `try: ... except ValueError`. -/
def _process_NAV_DOP (m : Msg) (_cfg : Cfg) : PyM Unit :=
  match m with
  | .navDop f => tryVE (bodyNAV_DOP f)
  | _ => pyRaise .attributeError

/-- Body of `_process_HNR_PVT` (source lines 482 to 534): like NAV-PVT but
with no pdop or sip update, fix decoded from `gpsFix`, and a trackpoint
call without the satellite-count and pdop keywords. -/
def bodyHNR_PVT (f : HnrPvtFields) (cfg : Cfg) : PyM Unit :=
  pbind (getF f.iTOW) fun itow =>
  pbind (modifySt fun st => { st with utc := itow2utc itow }) fun _ =>
  pbind (getF f.lat) fun la =>
  pbind (modifySt fun st => { st with lat := (la : Rat) / 10 ^ 7 }) fun _ =>
  pbind (getF f.lon) fun lo =>
  pbind (modifySt fun st => { st with lon := (lo : Rat) / 10 ^ 7 }) fun _ =>
  pbind (getF f.hMSL) fun hm =>
  pbind (modifySt fun st => { st with alt := (hm : Rat) / 1000 }) fun _ =>
  pbind (getF f.hAcc) fun ha =>
  pbind (modifySt fun st => { st with hacc := (ha : Rat) / 1000 }) fun _ =>
  pbind (getF f.vAcc) fun va =>
  pbind (modifySt fun st => { st with vacc := (va : Rat) / 1000 }) fun _ =>
  pbind (getF f.gSpeed) fun gs =>
  pbind (modifySt fun st => { st with speed := (gs : Rat) / 1000 }) fun _ =>
  pbind (getF f.headMot) fun hd =>
  pbind (modifySt fun st => { st with track := (hd : Rat) / 10 ^ 5 }) fun _ =>
  pbind (getF f.gpsFix) fun gf =>
  let fix := gpsfix2str gf
  pbind (emitWith fun st =>
    .banner
      { time := some st.utc, lat := some st.lat, lon := some st.lon,
        alt := some st.alt, hacc := some st.hacc, vacc := some st.vacc,
        speed := some st.speed, fix := some fix, track := some st.track }) fun _ =>
  pbind (emitWith fun st => .mapview st.lat st.lon st.hacc (some fix)) fun _ =>
  withSt fun st0 =>
  if cfg.record_track && numNeEmptyStr st0.lat && numNeEmptyStr st0.lon then
    pbind (getF f.year) fun yr =>
    pbind (getF f.month) fun mo =>
    pbind (getF f.day) fun dy =>
    pbind (getF f.hour) fun hr =>
    pbind (getF f.min) fun mi =>
    pbind (getF f.second) fun sc =>
    pbind (getE (pyDatetimeIso yr mo dy hr mi sc)) fun iso =>
    let time := iso ++ "Z"
    let fix2 := if fix == "3D" then "3d" else if fix == "2D" then "2d" else "none"
    emitWith fun st => .trackpoint st.lat st.lon st.alt time fix2 none none
  else ppure ()

/-- Handler for HNR-PVT: the body under `try: ... except ValueError`. -/
def _process_HNR_PVT (m : Msg) (cfg : Cfg) : PyM Unit :=
  match m with
  | .hnrPvt f => tryVE (bodyHNR_PVT f cfg)
  | _ => pyRaise .attributeError

/-- Handler for MON-RF (source lines 539 to 541).  Note that this handler
has no `try: ... except` wrapper. -/
def _process_MON_RF (m : Msg) (_cfg : Cfg) : PyM Unit :=
  match m with
  | .monRf f =>
    pbind (getF f.flags_01) fun fl =>
    pbind (getF f.jamInd_01) fun j =>
    emit (.spanJamming fl j)
  | _ => pyRaise .attributeError

/-- The 256 attribute reads `spectrum_01_001` to `spectrum_01_256` of
`_process_MON_SPAN`, from index `i` for `cnt` further reads; a missing
attribute raises `AttributeError`. -/
def readSpectra (l : List (FV Int)) : Nat → Nat → Except PyErr (List Int)
  | _, 0 => .ok []
  | i, cnt + 1 =>
    match l[i]? with
    | none => .error .attributeError
    | some (.error e) => .error e
    | some (.ok x) =>
      match readSpectra l (i + 1) cnt with
      | .error e => .error e
      | .ok rest => .ok (x :: rest)

/-- Handler for MON-SPAN (source lines 543 to 802).  Note that this
handler has no `try: ... except` wrapper. -/
def _process_MON_SPAN (m : Msg) (_cfg : Cfg) : PyM Unit :=
  match m with
  | .monSpan f =>
    pbind (getE (readSpectra f.spectrum 0 256)) fun spectra =>
    pbind (getF f.center_01) fun c =>
    pbind (getF f.span_01) fun s =>
    emit (.spanUpdate spectra c s)
  | _ => pyRaise .attributeError

/-- The `spooftext` local of `SpanviewFrame._draw_jamming` (source lines
163 to 177 of `spanview_frame.py`): four independent `if` statements bind
the label for spoof values 0 to 3; for any other value the local is never
bound and its use in `create_text` raises `UnboundLocalError`. -/
def drawJammingSpooftext (spoof : Nat) : Except PyErr String :=
  let t : Option String := none
  let t := if spoof == 0 then some "deactivated" else t
  let t := if spoof == 1 then some "no spoofing" else t
  let t := if spoof == 2 then some "spoofing" else t
  let t := if spoof == 3 then some "multiple spoof" else t
  match t with
  | some s => .ok s
  | none => .error .unboundLocalError

/-- The spoof rectangle colour of `_draw_jamming` (source lines 150 to
153 of `spanview_frame.py`). -/
def drawJammingSpoofColor (spoof : Nat) : String :=
  if spoof < 2 then "green" else "red"

/-- Modelled from the spec: a raw frame as consumed by
`UBXReader.parse(data, validate=VALCKSUM)` (pyubx2 is not part of this
repository).  Per spec section 4.1 the decoder validates the trailing
checksum, a deterministic algorithm over header and payload, and fails
with a checksum error on mismatch; on success it produces the decoded
message.  `body` holds the bytes covered by the checksum (class, id,
length, payload), `ck_a` and `ck_b` the trailing checksum bytes, and
`content` the message the payload encodes (payload field decoding itself
is performed inside pyubx2, outside this repository). -/
structure RawData where
  body : List Nat
  ck_a : Nat
  ck_b : Nat
  content : Msg
  deriving DecidableEq

/-- The 8-bit Fletcher checksum over the covered bytes, as used by the
UBX protocol. -/
def ubxChecksum (body : List Nat) : Nat × Nat :=
  body.foldl (fun ab b => ((ab.1 + b) % 256, (ab.2 + ab.1 + b) % 256)) (0, 0)

/-- Modelled from the spec: `UBXReader.parse` with checksum validation. -/
def parse (d : RawData) : Except PyErr Msg :=
  if ubxChecksum d.body = (d.ck_a, d.ck_b) then .ok d.content
  else .error .checksumError

/-- The console sink call made by `_update_console` (source lines 118 to
129): the raw representation when `frm_settings.raw` is set, otherwise the
parsed representation. -/
def _update_console (cfg : Cfg) : SinkCall := .console cfg.raw

/-- Accumulator of the dispatch chain: handler state, sink-call trace, the
names of the handlers invoked so far, and the exception currently
propagating, if any. -/
abbrev DispatchAcc := UBXState × List SinkCall × List String × Option PyErr

/-- One `if parsed_data.identity == NAME: self._process_NAME(parsed_data)`
statement of `process_data`.  When an exception is already propagating,
no further statement runs; otherwise the handler runs when the identity
matches, and its invocation is recorded in the log. -/
def dispatchStep (name : String) (h : Msg → Cfg → PyM Unit) (m : Msg)
    (cfg : Cfg) (acc : DispatchAcc) : DispatchAcc :=
  if m.identity == name then
    match acc with
    | (st, tr, lg, some e) => (st, tr, lg, some e)
    | (st, tr, lg, none) =>
      let r := h m cfg st tr
      (r.1, r.2.1, lg ++ [name],
        match r.2.2 with | .ok _ => none | .error e => some e)
  else acc

/-- The dispatch chain of `process_data` (source lines 73 to 112), in
source order: each entry is one identity test with its handler. -/
def handlerTable : List (String × (Msg → Cfg → PyM Unit)) :=
  [("ACK-ACK", _process_ACK_ACK),
   ("ACK-NAK", _process_ACK_NAK),
   ("CFG-MSG", _process_CFG_MSG),
   ("CFG-PRT", _process_CFG_PRT),
   ("CFG-RATE", _process_CFG_RATE),
   ("CFG-INF", _process_CFG_INF),
   ("CFG-VALGET", _process_CFG_VALGET),
   ("NAV-POSLLH", _process_NAV_POSLLH),
   ("NAV-PVT", _process_NAV_PVT),
   ("NAV-VELNED", _process_NAV_VELNED),
   ("NAV-SAT", _process_NAV_SAT),
   ("NAV-SVINFO", _process_NAV_SVINFO),
   ("NAV-SOL", _process_NAV_SOL),
   ("NAV-DOP", _process_NAV_DOP),
   ("HNR-PVT", _process_HNR_PVT),
   ("MON-VER", _process_MON_VER),
   ("MON-HW", _process_MON_HW),
   ("NAV-STATUS", _process_NAV_STATUS),
   ("MON-RF", _process_MON_RF),
   ("MON-SPAN", _process_MON_SPAN)]

/-- The identity strings tested by the dispatch chain, in source order. -/
def handlerNames : List String := handlerTable.map Prod.fst

/-- Run the whole dispatch chain on a parsed message. -/
def foldSteps (m : Msg) (cfg : Cfg) (acc : DispatchAcc) : DispatchAcc :=
  handlerTable.foldl (fun a nh => dispatchStep nh.1 nh.2 m cfg a) acc

/-- Result of one `process_data` call: final handler state, sink-call
trace, invoked-handler log, and either the parsed message returned (or
`none` for `None` input) or the exception that escaped. -/
structure PRes where
  st : UBXState
  trace : List SinkCall
  log : List String
  result : FV (Option Msg)
  deriving DecidableEq

/-- The `process_data` method (source lines 59 to 116): `None` input is
returned immediately; otherwise the frame is parsed (checksum validated),
the dispatch chain runs, and, when no exception escaped a handler, the
console sink is invoked once (the guard `if data or parsed_data` is true
on this path: `parsed_data` is an object and hence truthy). -/
def process_data (cfg : Cfg) (st : UBXState) (data : Option RawData) : PRes :=
  match data with
  | none => ⟨st, [], [], .ok none⟩
  | some d =>
    match parse d with
    | .error e => ⟨st, [], [], .error e⟩
    | .ok m =>
      match foldSteps m cfg (st, [], [], none) with
      | (st1, tr1, lg, some e) => ⟨st1, tr1, lg, .error e⟩
      | (st1, tr1, lg, none) =>
        ⟨st1, tr1 ++ [_update_console cfg], lg, .ok (some m)⟩

/-- Whether a sink call is a console-sink call. -/
def isConsole : SinkCall → Bool
  | .console _ => true
  | _ => false

lemma countConsole_eq_filter (tr : List SinkCall) :
    countConsole tr = (tr.filter isConsole).length := rfl

lemma countConsole_append (a b : List SinkCall) :
    countConsole (a ++ b) = countConsole a + countConsole b := by
  simp [countConsole_eq_filter, List.filter_append]

/-- A computation preserves the number of console-sink calls in the trace:
no handler body ever writes to the console (only `_update_console`,
called from `process_data` itself, does). -/
def PC {α : Type} (x : PyM α) : Prop :=
  ∀ st tr, countConsole (x st tr).2.1 = countConsole tr

lemma pc_ppure {α : Type} (a : α) : PC (ppure a) := fun _ _ => rfl

lemma pc_getF {α : Type} (v : FV α) : PC (getF v) := fun _ _ => rfl

lemma pc_getE {α : Type} (v : Except PyErr α) : PC (getE v) := fun _ _ => rfl

lemma pc_modifySt (f : UBXState → UBXState) : PC (modifySt f) := fun _ _ => rfl

lemma pc_pyRaise {α : Type} (e : PyErr) : PC (pyRaise (α := α) e) := fun _ _ => rfl

lemma pc_emit (c : SinkCall) (h : isConsole c = false) : PC (emit c) := by
  intro st tr
  simp [emit, countConsole_eq_filter, List.filter_append, h]

lemma pc_emitWith (f : UBXState → SinkCall) (h : ∀ st, isConsole (f st) = false) :
    PC (emitWith f) := by
  intro st tr
  simp [emitWith, countConsole_eq_filter, List.filter_append, h]

lemma pc_pbind {α β : Type} {x : PyM α} {f : α → PyM β}
    (hx : PC x) (hf : ∀ a, PC (f a)) : PC (pbind x f) := by
  intro st tr
  unfold pbind
  rcases hxe : x st tr with ⟨st1, tr1, r⟩
  have h1 := hx st tr
  rw [hxe] at h1
  cases r with
  | ok a =>
    have h2 := hf a st1 tr1
    simpa using h2.trans h1
  | error e => simpa using h1

lemma pc_tryVE {x : PyM Unit} (hx : PC x) : PC (tryVE x) := by
  intro st tr
  unfold tryVE
  rcases hxe : x st tr with ⟨st1, tr1, r⟩
  have h1 := hx st tr
  rw [hxe] at h1
  match r with
  | .ok a => simpa using h1
  | .error .valueError => simpa using h1
  | .error .attributeError => simpa using h1
  | .error .checksumError => simpa using h1
  | .error .unboundLocalError => simpa using h1

lemma pc_withSt {α : Type} {k : UBXState → PyM α} (h : ∀ s, PC (k s)) :
    PC (withSt k) := fun st tr => h st st tr

lemma pc_ite {α : Type} (c : Prop) [Decidable c] {x y : PyM α}
    (hx : PC x) (hy : PC y) : PC (if c then x else y) := by
  split <;> assumption

lemma pc_cfgPanelBody (name : String) (cfg : Cfg) : PC (cfgPanelBody name cfg) := by
  unfold cfgPanelBody
  exact pc_ite _ (pc_emit _ rfl) (pc_ppure _)

lemma pc_bodyNAV_POSLLH (f : NavPosllhFields) : PC (bodyNAV_POSLLH f) := by
  unfold bodyNAV_POSLLH
  refine pc_pbind (pc_getF _) fun itow => ?_
  refine pc_pbind (pc_modifySt _) fun _ => ?_
  refine pc_pbind (pc_getF _) fun la => ?_
  refine pc_pbind (pc_modifySt _) fun _ => ?_
  refine pc_pbind (pc_getF _) fun lo => ?_
  refine pc_pbind (pc_modifySt _) fun _ => ?_
  refine pc_pbind (pc_getF _) fun hm => ?_
  refine pc_pbind (pc_modifySt _) fun _ => ?_
  refine pc_pbind (pc_getF _) fun ha => ?_
  refine pc_pbind (pc_modifySt _) fun _ => ?_
  refine pc_pbind (pc_getF _) fun va => ?_
  refine pc_pbind (pc_modifySt _) fun _ => ?_
  refine pc_pbind (pc_emitWith _ fun st => rfl) fun _ => ?_
  exact pc_emitWith _ fun st => rfl

lemma pc_bodyNAV_PVT (f : NavPvtFields) (cfg : Cfg) : PC (bodyNAV_PVT f cfg) := by
  unfold bodyNAV_PVT
  refine pc_pbind (pc_getF _) fun itow => ?_
  refine pc_pbind (pc_modifySt _) fun _ => ?_
  refine pc_pbind (pc_getF _) fun la => ?_
  refine pc_pbind (pc_modifySt _) fun _ => ?_
  refine pc_pbind (pc_getF _) fun lo => ?_
  refine pc_pbind (pc_modifySt _) fun _ => ?_
  refine pc_pbind (pc_getF _) fun hm => ?_
  refine pc_pbind (pc_modifySt _) fun _ => ?_
  refine pc_pbind (pc_getF _) fun ha => ?_
  refine pc_pbind (pc_modifySt _) fun _ => ?_
  refine pc_pbind (pc_getF _) fun va => ?_
  refine pc_pbind (pc_modifySt _) fun _ => ?_
  refine pc_pbind (pc_getF _) fun pd => ?_
  refine pc_pbind (pc_modifySt _) fun _ => ?_
  refine pc_pbind (pc_getF _) fun ns => ?_
  refine pc_pbind (pc_modifySt _) fun _ => ?_
  refine pc_pbind (pc_getF _) fun gs => ?_
  refine pc_pbind (pc_modifySt _) fun _ => ?_
  refine pc_pbind (pc_getF _) fun hd => ?_
  refine pc_pbind (pc_modifySt _) fun _ => ?_
  refine pc_pbind (pc_getF _) fun ft => ?_
  refine pc_pbind (pc_emitWith _ fun st => rfl) fun _ => ?_
  refine pc_pbind (pc_emitWith _ fun st => rfl) fun _ => ?_
  refine pc_withSt fun st0 => ?_
  refine pc_ite _ ?_ (pc_ppure _)
  refine pc_pbind (pc_getF _) fun yr => ?_
  refine pc_pbind (pc_getF _) fun mo => ?_
  refine pc_pbind (pc_getF _) fun dy => ?_
  refine pc_pbind (pc_getF _) fun hr => ?_
  refine pc_pbind (pc_getF _) fun mi => ?_
  refine pc_pbind (pc_getF _) fun sc => ?_
  refine pc_pbind (pc_getE _) fun iso => ?_
  exact pc_emitWith _ fun st => rfl

lemma pc_bodyNAV_VELNED (f : NavVelnedFields) : PC (bodyNAV_VELNED f) := by
  unfold bodyNAV_VELNED
  refine pc_pbind (pc_getF _) fun hd => ?_
  refine pc_pbind (pc_modifySt _) fun _ => ?_
  refine pc_pbind (pc_getF _) fun gs => ?_
  refine pc_pbind (pc_modifySt _) fun _ => ?_
  exact pc_emitWith _ fun st => rfl

lemma pc_bodyNAV_SAT (f : NavSatFields) (cfg : Cfg) : PC (bodyNAV_SAT f cfg) := by
  unfold bodyNAV_SAT
  refine pc_pbind (pc_modifySt _) fun _ => ?_
  refine pc_pbind (pc_getF _) fun n => ?_
  refine pc_pbind (pc_modifySt _) fun _ => ?_
  split
  · exact pc_pyRaise _
  · refine pc_pbind (pc_emitWith _ fun st => rfl) fun _ => ?_
    refine pc_pbind (pc_emitWith _ fun st => rfl) fun _ => ?_
    exact pc_emitWith _ fun st => rfl

lemma pc_bodyNAV_SVINFO (f : NavSvinfoFields) (cfg : Cfg) : PC (bodyNAV_SVINFO f cfg) := by
  unfold bodyNAV_SVINFO
  refine pc_pbind (pc_modifySt _) fun _ => ?_
  refine pc_pbind (pc_getF _) fun n => ?_
  refine pc_pbind (pc_modifySt _) fun _ => ?_
  split
  · exact pc_pyRaise _
  · refine pc_pbind (pc_emitWith _ fun st => rfl) fun _ => ?_
    refine pc_pbind (pc_emitWith _ fun st => rfl) fun _ => ?_
    exact pc_emitWith _ fun st => rfl

lemma pc_bodyNAV_SOL (f : NavSolFields) : PC (bodyNAV_SOL f) := by
  unfold bodyNAV_SOL
  refine pc_pbind (pc_getF _) fun pd => ?_
  refine pc_pbind (pc_modifySt _) fun _ => ?_
  refine pc_pbind (pc_getF _) fun ns => ?_
  refine pc_pbind (pc_modifySt _) fun _ => ?_
  refine pc_pbind (pc_getF _) fun gf => ?_
  exact pc_emitWith _ fun st => rfl

lemma pc_bodyNAV_DOP (f : NavDopFields) : PC (bodyNAV_DOP f) := by
  unfold bodyNAV_DOP
  refine pc_pbind (pc_getF _) fun pd => ?_
  refine pc_pbind (pc_modifySt _) fun _ => ?_
  refine pc_pbind (pc_getF _) fun hd => ?_
  refine pc_pbind (pc_modifySt _) fun _ => ?_
  refine pc_pbind (pc_getF _) fun vd => ?_
  refine pc_pbind (pc_modifySt _) fun _ => ?_
  exact pc_emitWith _ fun st => rfl

lemma pc_bodyHNR_PVT (f : HnrPvtFields) (cfg : Cfg) : PC (bodyHNR_PVT f cfg) := by
  unfold bodyHNR_PVT
  refine pc_pbind (pc_getF _) fun itow => ?_
  refine pc_pbind (pc_modifySt _) fun _ => ?_
  refine pc_pbind (pc_getF _) fun la => ?_
  refine pc_pbind (pc_modifySt _) fun _ => ?_
  refine pc_pbind (pc_getF _) fun lo => ?_
  refine pc_pbind (pc_modifySt _) fun _ => ?_
  refine pc_pbind (pc_getF _) fun hm => ?_
  refine pc_pbind (pc_modifySt _) fun _ => ?_
  refine pc_pbind (pc_getF _) fun ha => ?_
  refine pc_pbind (pc_modifySt _) fun _ => ?_
  refine pc_pbind (pc_getF _) fun va => ?_
  refine pc_pbind (pc_modifySt _) fun _ => ?_
  refine pc_pbind (pc_getF _) fun gs => ?_
  refine pc_pbind (pc_modifySt _) fun _ => ?_
  refine pc_pbind (pc_getF _) fun hd => ?_
  refine pc_pbind (pc_modifySt _) fun _ => ?_
  refine pc_pbind (pc_getF _) fun gf => ?_
  refine pc_pbind (pc_emitWith _ fun st => rfl) fun _ => ?_
  refine pc_pbind (pc_emitWith _ fun st => rfl) fun _ => ?_
  refine pc_withSt fun st0 => ?_
  refine pc_ite _ ?_ (pc_ppure _)
  refine pc_pbind (pc_getF _) fun yr => ?_
  refine pc_pbind (pc_getF _) fun mo => ?_
  refine pc_pbind (pc_getF _) fun dy => ?_
  refine pc_pbind (pc_getF _) fun hr => ?_
  refine pc_pbind (pc_getF _) fun mi => ?_
  refine pc_pbind (pc_getF _) fun sc => ?_
  refine pc_pbind (pc_getE _) fun iso => ?_
  exact pc_emitWith _ fun st => rfl

lemma pc_ACK_ACK (m : Msg) (cfg : Cfg) : PC (_process_ACK_ACK m cfg) := by
  unfold _process_ACK_ACK
  cases m <;> first | exact pc_pyRaise _ | exact pc_cfgPanelBody _ _

lemma pc_ACK_NAK (m : Msg) (cfg : Cfg) : PC (_process_ACK_NAK m cfg) := by
  unfold _process_ACK_NAK
  cases m <;> first | exact pc_pyRaise _ | exact pc_cfgPanelBody _ _

lemma pc_CFG_MSG (m : Msg) (cfg : Cfg) : PC (_process_CFG_MSG m cfg) := by
  unfold _process_CFG_MSG
  cases m <;> first | exact pc_pyRaise _ | exact pc_cfgPanelBody _ _

lemma pc_CFG_PRT (m : Msg) (cfg : Cfg) : PC (_process_CFG_PRT m cfg) := by
  unfold _process_CFG_PRT
  cases m <;> first | exact pc_pyRaise _ | exact pc_cfgPanelBody _ _

lemma pc_CFG_RATE (m : Msg) (cfg : Cfg) : PC (_process_CFG_RATE m cfg) := by
  unfold _process_CFG_RATE
  cases m <;> first | exact pc_pyRaise _ | exact pc_cfgPanelBody _ _

lemma pc_CFG_INF (m : Msg) (cfg : Cfg) : PC (_process_CFG_INF m cfg) := by
  unfold _process_CFG_INF
  cases m <;> first | exact pc_pyRaise _ | exact pc_cfgPanelBody _ _

lemma pc_CFG_VALGET (m : Msg) (cfg : Cfg) : PC (_process_CFG_VALGET m cfg) := by
  unfold _process_CFG_VALGET
  cases m <;> first | exact pc_pyRaise _ | exact pc_cfgPanelBody _ _

lemma pc_MON_VER (m : Msg) (cfg : Cfg) : PC (_process_MON_VER m cfg) := by
  unfold _process_MON_VER
  cases m <;> first | exact pc_pyRaise _ | exact pc_tryVE (pc_cfgPanelBody _ _)

lemma pc_MON_HW (m : Msg) (cfg : Cfg) : PC (_process_MON_HW m cfg) := by
  unfold _process_MON_HW
  cases m <;> first | exact pc_pyRaise _ | exact pc_cfgPanelBody _ _

lemma pc_NAV_POSLLH (m : Msg) (cfg : Cfg) : PC (_process_NAV_POSLLH m cfg) := by
  unfold _process_NAV_POSLLH
  cases m <;> first | exact pc_pyRaise _ | exact pc_tryVE (pc_bodyNAV_POSLLH _)

lemma pc_NAV_PVT (m : Msg) (cfg : Cfg) : PC (_process_NAV_PVT m cfg) := by
  unfold _process_NAV_PVT
  cases m <;> first | exact pc_pyRaise _ | exact pc_tryVE (pc_bodyNAV_PVT _ _)

lemma pc_NAV_VELNED (m : Msg) (cfg : Cfg) : PC (_process_NAV_VELNED m cfg) := by
  unfold _process_NAV_VELNED
  cases m <;> first | exact pc_pyRaise _ | exact pc_tryVE (pc_bodyNAV_VELNED _)

lemma pc_NAV_SAT (m : Msg) (cfg : Cfg) : PC (_process_NAV_SAT m cfg) := by
  unfold _process_NAV_SAT
  cases m <;> first | exact pc_pyRaise _ | exact pc_tryVE (pc_bodyNAV_SAT _ _)

lemma pc_NAV_SVINFO (m : Msg) (cfg : Cfg) : PC (_process_NAV_SVINFO m cfg) := by
  unfold _process_NAV_SVINFO
  cases m <;> first | exact pc_pyRaise _ | exact pc_tryVE (pc_bodyNAV_SVINFO _ _)

lemma pc_NAV_SOL (m : Msg) (cfg : Cfg) : PC (_process_NAV_SOL m cfg) := by
  unfold _process_NAV_SOL
  cases m <;> first | exact pc_pyRaise _ | exact pc_tryVE (pc_bodyNAV_SOL _)

lemma pc_NAV_DOP (m : Msg) (cfg : Cfg) : PC (_process_NAV_DOP m cfg) := by
  unfold _process_NAV_DOP
  cases m <;> first | exact pc_pyRaise _ | exact pc_tryVE (pc_bodyNAV_DOP _)

lemma pc_HNR_PVT (m : Msg) (cfg : Cfg) : PC (_process_HNR_PVT m cfg) := by
  unfold _process_HNR_PVT
  cases m <;> first | exact pc_pyRaise _ | exact pc_tryVE (pc_bodyHNR_PVT _ _)

lemma pc_NAV_STATUS (m : Msg) (cfg : Cfg) : PC (_process_NAV_STATUS m cfg) := by
  unfold _process_NAV_STATUS
  cases m <;> first
    | exact pc_pyRaise _
    | exact pc_pbind (pc_getF _) fun fl => pc_emit _ rfl

lemma pc_MON_RF (m : Msg) (cfg : Cfg) : PC (_process_MON_RF m cfg) := by
  unfold _process_MON_RF
  cases m <;> first
    | exact pc_pyRaise _
    | exact pc_pbind (pc_getF _) fun fl =>
        pc_pbind (pc_getF _) fun j => pc_emit _ rfl

lemma pc_MON_SPAN (m : Msg) (cfg : Cfg) : PC (_process_MON_SPAN m cfg) := by
  unfold _process_MON_SPAN
  cases m <;> first
    | exact pc_pyRaise _
    | exact pc_pbind (pc_getE _) fun sp =>
        pc_pbind (pc_getF _) fun c =>
        pc_pbind (pc_getF _) fun s => pc_emit _ rfl

lemma dispatchStep_ne {name : String} {h : Msg → Cfg → PyM Unit} {m : Msg}
    {cfg : Cfg} {acc : DispatchAcc} (hne : m.identity ≠ name) :
    dispatchStep name h m cfg acc = acc := by
  unfold dispatchStep
  simp [hne]

lemma foldl_dispatch_skip (m : Msg) (cfg : Cfg)
    (l : List (String × (Msg → Cfg → PyM Unit)))
    (h : ∀ nh ∈ l, m.identity ≠ nh.1) (acc : DispatchAcc) :
    l.foldl (fun a nh => dispatchStep nh.1 nh.2 m cfg a) acc = acc := by
  induction l generalizing acc with
  | nil => rfl
  | cons hd tl ih =>
    rw [List.foldl_cons, dispatchStep_ne (h hd (by simp))]
    exact ih (fun nh hm => h nh (by simp [hm])) acc

/-- Lookup of the unique handler whose identity test matches, in chain
order. -/
def handlerFor (s : String) : Option (Msg → Cfg → PyM Unit) :=
  (handlerTable.find? (fun nh => s == nh.1)).map Prod.snd

lemma handlerFor_eq_none {s : String} :
    handlerFor s = none ↔ s ∉ handlerNames := by
  unfold handlerFor handlerNames
  rw [Option.map_eq_none', List.find?_eq_none]
  constructor
  · intro h hmem
    rcases List.mem_map.mp hmem with ⟨nh, hnh, hfst⟩
    exact absurd (by simp [hfst]) (h nh hnh)
  · intro h nh hnh
    simp only [beq_iff_eq]
    intro hs
    exact h (List.mem_map.mpr ⟨nh, hnh, hs.symm⟩)

lemma pc_table (nh : String × (Msg → Cfg → PyM Unit)) (h : nh ∈ handlerTable)
    (m : Msg) (cfg : Cfg) : PC (nh.2 m cfg) := by
  simp only [handlerTable, List.mem_cons, List.not_mem_nil, or_false] at h
  rcases h with h|h|h|h|h|h|h|h|h|h|h|h|h|h|h|h|h|h|h|h <;> subst h <;>
    first
      | exact pc_ACK_ACK m cfg
      | exact pc_ACK_NAK m cfg
      | exact pc_CFG_MSG m cfg
      | exact pc_CFG_PRT m cfg
      | exact pc_CFG_RATE m cfg
      | exact pc_CFG_INF m cfg
      | exact pc_CFG_VALGET m cfg
      | exact pc_NAV_POSLLH m cfg
      | exact pc_NAV_PVT m cfg
      | exact pc_NAV_VELNED m cfg
      | exact pc_NAV_SAT m cfg
      | exact pc_NAV_SVINFO m cfg
      | exact pc_NAV_SOL m cfg
      | exact pc_NAV_DOP m cfg
      | exact pc_HNR_PVT m cfg
      | exact pc_MON_VER m cfg
      | exact pc_MON_HW m cfg
      | exact pc_NAV_STATUS m cfg
      | exact pc_MON_RF m cfg
      | exact pc_MON_SPAN m cfg

/-- Characterization of the whole dispatch chain run from a clean
accumulator: the unique matching identity test (if any) runs its handler
and logs it; every other test is a no-op.  The well-formedness hypothesis
rules out an `unknown` message carrying one of the twenty dispatched
identity strings, which `UBXReader.parse` never produces. -/
lemma foldSteps_eq (m : Msg) (cfg : Cfg) (st : UBXState)
    (hwf : ∀ s, m = .unknown s → s ∉ handlerNames) :
    foldSteps m cfg (st, [], [], none) =
      match handlerFor m.identity with
      | none => (st, [], [], none)
      | some h =>
        let r := h m cfg st []
        (r.1, r.2.1, [m.identity],
          match r.2.2 with | .ok _ => none | .error e => some e) := by
  cases m with
  | unknown s =>
    have hmem : s ∉ handlerNames := hwf s rfl
    have hne : ∀ nh ∈ handlerTable, Msg.identity (.unknown s) ≠ nh.1 := by
      intro nh hnh heq
      exact hmem (List.mem_map.mpr ⟨nh, hnh, heq.symm⟩)
    simp only [Msg.identity]
    rw [handlerFor_eq_none.mpr hmem]
    unfold foldSteps
    exact foldl_dispatch_skip _ cfg handlerTable hne _
  | ackAck =>
    simp [foldSteps, handlerTable, handlerFor, dispatchStep, Msg.identity]
  | ackNak =>
    simp [foldSteps, handlerTable, handlerFor, dispatchStep, Msg.identity]
  | cfgMsg =>
    simp [foldSteps, handlerTable, handlerFor, dispatchStep, Msg.identity]
  | cfgPrt =>
    simp [foldSteps, handlerTable, handlerFor, dispatchStep, Msg.identity]
  | cfgRate =>
    simp [foldSteps, handlerTable, handlerFor, dispatchStep, Msg.identity]
  | cfgInf =>
    simp [foldSteps, handlerTable, handlerFor, dispatchStep, Msg.identity]
  | cfgValget =>
    simp [foldSteps, handlerTable, handlerFor, dispatchStep, Msg.identity]
  | navPosllh f =>
    simp [foldSteps, handlerTable, handlerFor, dispatchStep, Msg.identity]
  | navPvt f =>
    simp [foldSteps, handlerTable, handlerFor, dispatchStep, Msg.identity]
  | navVelned f =>
    simp [foldSteps, handlerTable, handlerFor, dispatchStep, Msg.identity]
  | navSat f =>
    simp [foldSteps, handlerTable, handlerFor, dispatchStep, Msg.identity]
  | navSvinfo f =>
    simp [foldSteps, handlerTable, handlerFor, dispatchStep, Msg.identity]
  | navSol f =>
    simp [foldSteps, handlerTable, handlerFor, dispatchStep, Msg.identity]
  | navDop f =>
    simp [foldSteps, handlerTable, handlerFor, dispatchStep, Msg.identity]
  | hnrPvt f =>
    simp [foldSteps, handlerTable, handlerFor, dispatchStep, Msg.identity]
  | monVer =>
    simp [foldSteps, handlerTable, handlerFor, dispatchStep, Msg.identity]
  | monHw =>
    simp [foldSteps, handlerTable, handlerFor, dispatchStep, Msg.identity]
  | navStatus f =>
    simp [foldSteps, handlerTable, handlerFor, dispatchStep, Msg.identity]
  | monRf f =>
    simp [foldSteps, handlerTable, handlerFor, dispatchStep, Msg.identity]
  | monSpan f =>
    simp [foldSteps, handlerTable, handlerFor, dispatchStep, Msg.identity]

lemma handlerFor_some {s : String} {h : Msg → Cfg → PyM Unit}
    (hf : handlerFor s = some h) :
    s ∈ handlerNames ∧ ∃ nh ∈ handlerTable, nh.2 = h := by
  unfold handlerFor at hf
  rcases Option.map_eq_some'.mp hf with ⟨nh, hfind, hsnd⟩
  have hmem := List.mem_of_find?_eq_some hfind
  have hp : s = nh.1 := by simpa using List.find?_some hfind
  exact ⟨List.mem_map.mpr ⟨nh, hmem, hp.symm⟩, nh, hmem, hsnd⟩

/-- C1: for every non-None raw frame that decodes successfully (and whose
dispatch completes, so that `process_data` returns the parsed message),
exactly the one handler whose identity test matches the decoded identity
is invoked, zero handlers for an identity outside the dispatch table, and
the console sink is invoked exactly once either way. -/
theorem process_data_dispatches_once (cfg : Cfg) (st : UBXState) (d : RawData)
    (m : Msg) (st' : UBXState) (tr : List SinkCall) (lg : List String)
    (hp : parse d = .ok m)
    (hwf : ∀ s, m = .unknown s → s ∉ handlerNames)
    (hrun : process_data cfg st (some d) = ⟨st', tr, lg, .ok (some m)⟩) :
    lg = (if m.identity ∈ handlerNames then [m.identity] else [])
      ∧ countConsole tr = 1 := by
  unfold process_data at hrun
  dsimp only at hrun
  rw [hp] at hrun
  dsimp only at hrun
  rw [foldSteps_eq m cfg st hwf] at hrun
  cases hf : handlerFor m.identity with
  | none =>
    rw [hf] at hrun
    dsimp only at hrun
    simp only [PRes.mk.injEq] at hrun
    obtain ⟨h1, h2, h3, h4⟩ := hrun
    rw [if_neg (handlerFor_eq_none.mp hf)]
    constructor
    · exact h3.symm
    · rw [← h2]; rfl
  | some h =>
    rw [hf] at hrun
    dsimp only at hrun
    rcases hr : h m cfg st [] with ⟨st1, tr1, r2⟩
    rw [hr] at hrun
    dsimp only at hrun
    obtain ⟨hmem, nh, hnh, hsnd⟩ := handlerFor_some hf
    cases r2 with
    | error e => simp at hrun
    | ok a =>
      simp only [PRes.mk.injEq] at hrun
      obtain ⟨h1, h2, h3, h4⟩ := hrun
      rw [if_pos hmem]
      refine ⟨h3.symm, ?_⟩
      rw [← h2, countConsole_append]
      have hpc : countConsole tr1 = countConsole ([] : List SinkCall) := by
        have hx := (hsnd ▸ pc_table nh hnh m cfg) st []
        rw [hr] at hx
        exact hx
      rw [hpc]
      rfl

/-- Witness for C1: a concrete NAV-DOP frame with valid checksum runs the
NAV-DOP handler exactly once and writes to the console exactly once. -/
theorem process_data_dispatches_once_witness :
    (["NAV-DOP"] = if Msg.identity (.navDop ⟨.ok 200, .ok 150, .ok 120⟩) ∈ handlerNames
      then [Msg.identity (.navDop ⟨.ok 200, .ok 150, .ok 120⟩)] else [])
    ∧ countConsole
        [.banner { dop := some 2, hdop := some (3/2 : Rat), vdop := some (6/5 : Rat) },
         .console false] = 1 :=
  process_data_dispatches_once ⟨false, false, false, true, true⟩ initState
    ⟨[1, 2], 3, 4, .navDop ⟨.ok 200, .ok 150, .ok 120⟩⟩
    (.navDop ⟨.ok 200, .ok 150, .ok 120⟩)
    { initState with pdop := 2, hdop := 3/2, vdop := 6/5 }
    [.banner { dop := some 2, hdop := some (3/2 : Rat), vdop := some (6/5 : Rat) },
     .console false]
    ["NAV-DOP"]
    (by rfl)
    (by intro s hs; cases hs)
    (by
      simp [process_data, parse, ubxChecksum, foldSteps, handlerTable,
        dispatchStep, Msg.identity, _process_NAV_DOP, bodyNAV_DOP, tryVE, pbind,
        getF, modifySt, emitWith, _update_console, initState]
      norm_num)

/-- C10: for `None` input, `process_data` returns immediately: no decode
is attempted, no handler runs, the console sink is not invoked, and the
held state is returned unmodified. -/
theorem process_data_none (cfg : Cfg) (st : UBXState) :
    process_data cfg st none = ⟨st, [], [], .ok none⟩ := rfl

/-- C2: a frame whose trailing checksum does not match fails in `decode`
with a checksum error; no handler is dispatched, no sink (console
included) is invoked, and the handler state is returned unmodified. -/
theorem process_data_checksum_error (cfg : Cfg) (st : UBXState) (d : RawData)
    (hck : ubxChecksum d.body ≠ (d.ck_a, d.ck_b)) :
    process_data cfg st (some d) = ⟨st, [], [], .error .checksumError⟩ := by
  simp [process_data, parse, hck]

/-- Witness for C2: a NAV-DOP frame whose stored checksum bytes disagree
with the computed Fletcher checksum is discarded whole. -/
theorem process_data_checksum_error_witness :
    process_data ⟨false, false, false, true, true⟩ initState
      (some ⟨[1, 2], 9, 9, .navDop ⟨.ok 200, .ok 150, .ok 120⟩⟩)
      = ⟨initState, [], [], .error .checksumError⟩ :=
  process_data_checksum_error _ _ _ (by decide)

/-- C5: the scale factors are per field and per message identity: NAV-PVT
latitude and longitude are the raw value divided by 10^7 (degrees), the
NAV-PVT ground speed is the raw value divided by 1000 (m/s), while the
NAV-VELNED ground speed is the raw value divided by 100 (m/s). -/
theorem scale_factors_per_identity (cfg : Cfg) (st st2 : UBXState)
    (f : NavPvtFields) (g : NavVelnedFields)
    (itow la lo hm ha va pd ns gs hd ft yr mo dy hr mi sc vh vg : Int)
    (h1 : f.iTOW = .ok itow) (h2 : f.lat = .ok la) (h3 : f.lon = .ok lo)
    (h4 : f.hMSL = .ok hm) (h5 : f.hAcc = .ok ha) (h6 : f.vAcc = .ok va)
    (h7 : f.pDOP = .ok pd) (h8 : f.numSV = .ok ns) (h9 : f.gSpeed = .ok gs)
    (h10 : f.headMot = .ok hd) (h11 : f.fixType = .ok ft)
    (h12 : f.year = .ok yr) (h13 : f.month = .ok mo) (h14 : f.day = .ok dy)
    (h15 : f.hour = .ok hr) (h16 : f.min = .ok mi) (h17 : f.second = .ok sc)
    (hvh : g.heading = .ok vh) (hvg : g.gSpeed = .ok vg) :
    ((_process_NAV_PVT (.navPvt f) cfg st []).1.lat = (la : Rat) / 10 ^ 7
      ∧ (_process_NAV_PVT (.navPvt f) cfg st []).1.lon = (lo : Rat) / 10 ^ 7
      ∧ (_process_NAV_PVT (.navPvt f) cfg st []).1.speed = (gs : Rat) / 1000)
    ∧ (_process_NAV_VELNED (.navVelned g) cfg st2 []).1.speed = (vg : Rat) / 100 := by
  constructor
  · by_cases hrt : cfg.record_track
    · cases hiso : pyDatetimeIso yr mo dy hr mi sc with
      | ok iso =>
        simp [_process_NAV_PVT, bodyNAV_PVT, tryVE, pbind, getF, getE, modifySt,
          emitWith, withSt, ppure, numNeEmptyStr, h1, h2, h3, h4, h5, h6, h7, h8,
          h9, h10, h11, h12, h13, h14, h15, h16, h17, hrt, hiso]
      | error e =>
        cases e <;>
          simp [_process_NAV_PVT, bodyNAV_PVT, tryVE, pbind, getF, getE, modifySt,
            emitWith, withSt, ppure, numNeEmptyStr, h1, h2, h3, h4, h5, h6, h7, h8,
            h9, h10, h11, h12, h13, h14, h15, h16, h17, hrt, hiso]
    · simp [_process_NAV_PVT, bodyNAV_PVT, tryVE, pbind, getF, getE, modifySt,
        emitWith, withSt, ppure, numNeEmptyStr, h1, h2, h3, h4, h5, h6, h7, h8,
        h9, h10, h11, h12, h13, h14, h15, h16, h17, hrt]
  · simp [_process_NAV_VELNED, bodyNAV_VELNED, tryVE, pbind, getF, modifySt,
      emitWith, hvh, hvg]

/-- Witness for C5: raw latitude 473397000 decodes to exactly 47.3397
degrees, raw NAV-PVT ground speed 1000 to 1 m/s, and raw NAV-VELNED
ground speed 100 to 1 m/s. -/
theorem scale_factors_per_identity_witness :
    (((_process_NAV_PVT
        (.navPvt ⟨.ok 0, .ok 473397000, .ok 0, .ok 0, .ok 0, .ok 0, .ok 0, .ok 0,
          .ok 1000, .ok 0, .ok 3, .ok 2021, .ok 4, .ok 21, .ok 12, .ok 0, .ok 0⟩)
        ⟨false, false, false, true, true⟩ initState []).1.lat
          = (473397000 : Rat) / 10 ^ 7
      ∧ (_process_NAV_PVT
        (.navPvt ⟨.ok 0, .ok 473397000, .ok 0, .ok 0, .ok 0, .ok 0, .ok 0, .ok 0,
          .ok 1000, .ok 0, .ok 3, .ok 2021, .ok 4, .ok 21, .ok 12, .ok 0, .ok 0⟩)
        ⟨false, false, false, true, true⟩ initState []).1.lon
          = (0 : Rat) / 10 ^ 7
      ∧ (_process_NAV_PVT
        (.navPvt ⟨.ok 0, .ok 473397000, .ok 0, .ok 0, .ok 0, .ok 0, .ok 0, .ok 0,
          .ok 1000, .ok 0, .ok 3, .ok 2021, .ok 4, .ok 21, .ok 12, .ok 0, .ok 0⟩)
        ⟨false, false, false, true, true⟩ initState []).1.speed
          = (1000 : Rat) / 1000)
    ∧ (_process_NAV_VELNED (.navVelned ⟨.ok 0, .ok 100⟩)
        ⟨false, false, false, true, true⟩ initState []).1.speed
          = (100 : Rat) / 100)
    ∧ (473397000 : Rat) / 10 ^ 7 = 473397 / 10000 :=
  ⟨scale_factors_per_identity ⟨false, false, false, true, true⟩ initState initState
    ⟨.ok 0, .ok 473397000, .ok 0, .ok 0, .ok 0, .ok 0, .ok 0, .ok 0,
      .ok 1000, .ok 0, .ok 3, .ok 2021, .ok 4, .ok 21, .ok 12, .ok 0, .ok 0⟩
    ⟨.ok 0, .ok 100⟩
    0 473397000 0 0 0 0 0 0 1000 0 3 2021 4 21 12 0 0 0 100
    rfl rfl rfl rfl rfl rfl rfl rfl rfl rfl rfl rfl rfl rfl rfl rfl rfl rfl rfl,
   by norm_num⟩

/-- C7 (amended): processing a NAV-DOP frame updates exactly the pdop,
hdop and vdop fields of the held state (the record update leaves every
other field, in particular lat and lon, unchanged) and calls the banner
sink with only the dop, hdop and vdop keywords. -/
theorem nav_dop_updates_only_dop (cfg : Cfg) (st : UBXState) (d : RawData)
    (f : NavDopFields) (pd hd vd : Int)
    (hp : parse d = .ok (.navDop f))
    (h1 : f.pDOP = .ok pd) (h2 : f.hDOP = .ok hd) (h3 : f.vDOP = .ok vd) :
    process_data cfg st (some d) =
      ⟨{ st with
          pdop := (pd : Rat) / 100
          hdop := (hd : Rat) / 100
          vdop := (vd : Rat) / 100 },
       [.banner
          { dop := some ((pd : Rat) / 100)
            hdop := some ((hd : Rat) / 100)
            vdop := some ((vd : Rat) / 100) },
        _update_console cfg],
       ["NAV-DOP"], .ok (some (.navDop f))⟩ := by
  unfold process_data
  dsimp only
  rw [hp]
  dsimp only
  rw [foldSteps_eq _ cfg st (by intro s h; cases h)]
  simp [handlerFor, handlerTable, Msg.identity, _process_NAV_DOP, bodyNAV_DOP,
    tryVE, pbind, getF, modifySt, emitWith, h1, h2, h3]

/-- Witness for the amended C7: a concrete NAV-DOP frame processed from
the initial state updates pdop, hdop and vdop only and calls the banner
with only those three keywords. -/
theorem nav_dop_updates_only_dop_witness :
    process_data ⟨false, false, false, true, true⟩ initState
      (some ⟨[1, 2], 3, 4, .navDop ⟨.ok 200, .ok 150, .ok 120⟩⟩)
      = ⟨{ initState with
            pdop := (200 : Rat) / 100
            hdop := (150 : Rat) / 100
            vdop := (120 : Rat) / 100 },
         [.banner
            { dop := some ((200 : Rat) / 100)
              hdop := some ((150 : Rat) / 100)
              vdop := some ((120 : Rat) / 100) },
          _update_console ⟨false, false, false, true, true⟩],
         ["NAV-DOP"], .ok (some (.navDop ⟨.ok 200, .ok 150, .ok 120⟩))⟩ :=
  nav_dop_updates_only_dop ⟨false, false, false, true, true⟩ initState
    ⟨[1, 2], 3, 4, .navDop ⟨.ok 200, .ok 150, .ok 120⟩⟩
    ⟨.ok 200, .ok 150, .ok 120⟩ 200 150 120 (by rfl) rfl rfl rfl

/-- Counterexample for C7 as stated: the message types do not update
pairwise-disjoint subsets of the state fields — a NAV-DOP message and a
NAV-PVT message both overwrite pdop (here both change it from its initial
value 0 to 2). -/
theorem nav_dop_and_pvt_both_write_pdop :
    (_process_NAV_DOP (.navDop ⟨.ok 200, .ok 150, .ok 120⟩)
        ⟨false, false, false, true, true⟩ initState []).1.pdop ≠ initState.pdop
    ∧ (_process_NAV_PVT (.navPvt ⟨.ok 0, .ok 0, .ok 0, .ok 0, .ok 0, .ok 0, .ok 200,
        .ok 0, .ok 0, .ok 0, .ok 3, .ok 2021, .ok 4, .ok 21, .ok 12, .ok 0, .ok 0⟩)
        ⟨false, false, false, true, true⟩ initState []).1.pdop ≠ initState.pdop := by
  constructor
  · simp [_process_NAV_DOP, bodyNAV_DOP, tryVE, pbind, getF, modifySt, emitWith,
      initState]
  · simp [_process_NAV_PVT, bodyNAV_PVT, tryVE, pbind, getF, getE, modifySt,
      emitWith, withSt, ppure, numNeEmptyStr, initState]

/-- C8: a NAV-SAT or NAV-SVINFO message with count field numCh = 0 decodes
an empty satellite-record sequence, and the satellite-view sink is still
called with that empty list (along with the graph view, and the banner
with a satellites-in-view count of 0) rather than the calls being
skipped. -/
theorem nav_sat_numch_zero (cfg : Cfg) (st : UBXState)
    (f : NavSatFields) (g : NavSvinfoFields)
    (hn : f.numCh = .ok 0) (hg : g.numCh = .ok 0) :
    _process_NAV_SAT (.navSat f) cfg st [] =
      ({ st with gsv_data := [] },
       [.banner { siv := some 0 }, .satview [], .graphview [] 0], .ok ())
    ∧ _process_NAV_SVINFO (.navSvinfo g) cfg st [] =
      ({ st with gsv_data := [] },
       [.banner { siv := some 0 }, .satview [], .graphview [] 0], .ok ()) := by
  constructor
  · simp [_process_NAV_SAT, bodyNAV_SAT, tryVE, pbind, getF, modifySt, emitWith,
      navSatScan, hn]
  · simp [_process_NAV_SVINFO, bodyNAV_SVINFO, tryVE, pbind, getF, modifySt,
      emitWith, navSvinfoScan, hg]

/-- Witness for C8: concrete NAV-SAT and NAV-SVINFO messages with
numCh = 0 and no channel attributes still produce the three sink calls
with an empty record list. -/
theorem nav_sat_numch_zero_witness :
    _process_NAV_SAT (.navSat ⟨.ok 0, []⟩) ⟨false, false, false, true, true⟩
        initState [] =
      ({ initState with gsv_data := [] },
       [.banner { siv := some 0 }, .satview [], .graphview [] 0], .ok ())
    ∧ _process_NAV_SVINFO (.navSvinfo ⟨.ok 0, []⟩) ⟨false, false, false, true, true⟩
        initState [] =
      ({ initState with gsv_data := [] },
       [.banner { siv := some 0 }, .satview [], .graphview [] 0], .ok ()) :=
  nav_sat_numch_zero ⟨false, false, false, true, true⟩ initState
    ⟨.ok 0, []⟩ ⟨.ok 0, []⟩ rfl rfl

/-- C4: the GLONASS slot-to-NMEA renumbering (adding 64) is applied
exactly once: it is idempotent on byte-valued ids, it fires only for
gnssId 6 with a raw slot id below 25 and not 255 under the GLONASS_NMEA
flag, a satellite id of 70 tagged GLONASS is left unchanged, each NAV-SAT
record carries exactly the once-remapped id of its channel, each
NAV-SVINFO record carries its channel id verbatim (no remap in the legacy
path), and an id that `svid2gnssid` tags as GLONASS is never inside the
raw 1 to 24 slot range, so the remap can never be double-applied across
the two message types. -/
theorem glonass_remap_exactly_once (gn : Bool) (g s : Int) (hs : 0 ≤ s) :
    glonassRemapSvid gn g (glonassRemapSvid gn g s) = glonassRemapSvid gn g s
    ∧ glonassRemapSvid true 6 70 = 70
    ∧ (glonassRemapSvid gn g s ≠ s → g = 6 ∧ s < 25 ∧ s ≠ 255 ∧ gn = true)
    ∧ (∀ (showZero : Bool) (chans : List SatChan) (i cnt : Nat),
        ∀ r ∈ (navSatScan showZero gn chans i cnt).1,
          ∃ c ∈ chans, r.gnssId = c.gnssId
            ∧ r.svid = glonassRemapSvid gn c.gnssId c.svid)
    ∧ (∀ (showZero : Bool) (chans : List SvChan) (i cnt : Nat),
        ∀ r ∈ (navSvinfoScan showZero chans i cnt).1,
          ∃ c ∈ chans, r.svid = c.svid ∧ r.gnssId = svid2gnssid c.svid)
    ∧ (∀ s2 : Int, svid2gnssid s2 = 6 → ¬(s2 < 25 ∧ s2 ≠ 255)) := by
  refine ⟨?_, ?_, ?_, ?_, ?_, ?_⟩
  · unfold glonassRemapSvid
    split_ifs <;> simp_all
    omega
  · decide
  · unfold glonassRemapSvid
    split_ifs <;> simp_all
  · intro showZero chans i cnt
    induction cnt generalizing i with
    | zero => simp [navSatScan]
    | succ n ih =>
      intro r hr
      cases hci : chans[i]? with
      | none => simp [navSatScan, hci] at hr
      | some c =>
        by_cases hz : (c.cno == 0 && !showZero) = true
        · rw [navSatScan] at hr
          simp only [hci, hz, if_true] at hr
          exact ih (i + 1) r hr
        · rw [navSatScan] at hr
          simp only [hci, hz, if_false] at hr
          rcases List.mem_cons.mp hr with hr1 | hr2
          · exact ⟨c, List.getElem?_mem hci, by rw [hr1], by rw [hr1]⟩
          · exact ih (i + 1) r hr2
  · intro showZero chans i cnt
    induction cnt generalizing i with
    | zero => simp [navSvinfoScan]
    | succ n ih =>
      intro r hr
      cases hci : chans[i]? with
      | none => simp [navSvinfoScan, hci] at hr
      | some c =>
        by_cases hz : (c.cno == 0 && !showZero) = true
        · rw [navSvinfoScan] at hr
          simp only [hci, hz, if_true] at hr
          exact ih (i + 1) r hr
        · rw [navSvinfoScan] at hr
          simp only [hci, hz, if_false] at hr
          rcases List.mem_cons.mp hr with hr1 | hr2
          · exact ⟨c, List.getElem?_mem hci, by rw [hr1], by rw [hr1]⟩
          · exact ih (i + 1) r hr2
  · intro s2 h hcon
    unfold svid2gnssid at h
    split_ifs at h with c1 c2 c3 c4 c5 c6
    · omega
    · omega
    · omega
    · omega
    · omega
    · rcases c6 with h65 | h255
      · omega
      · exact hcon.2 (by simpa using h255)
    · omega

/-- Witness for C4 at the concrete id 70 tagged GLONASS under the NMEA
flag: the remap leaves 70 unchanged and all the quantified parts hold. -/
theorem glonass_remap_exactly_once_witness :
    (0 : Int) ≤ 70
    ∧ (glonassRemapSvid true 6 (glonassRemapSvid true 6 70) = glonassRemapSvid true 6 70
    ∧ glonassRemapSvid true 6 70 = 70
    ∧ (glonassRemapSvid true 6 70 ≠ 70 → (6 : Int) = 6 ∧ (70 : Int) < 25 ∧ (70 : Int) ≠ 255 ∧ true = true)
    ∧ (∀ (showZero : Bool) (chans : List SatChan) (i cnt : Nat),
        ∀ r ∈ (navSatScan showZero true chans i cnt).1,
          ∃ c ∈ chans, r.gnssId = c.gnssId
            ∧ r.svid = glonassRemapSvid true c.gnssId c.svid)
    ∧ (∀ (showZero : Bool) (chans : List SvChan) (i cnt : Nat),
        ∀ r ∈ (navSvinfoScan showZero chans i cnt).1,
          ∃ c ∈ chans, r.svid = c.svid ∧ r.gnssId = svid2gnssid c.svid)
    ∧ (∀ s2 : Int, svid2gnssid s2 = 6 → ¬(s2 < 25 ∧ s2 ≠ 255))) :=
  ⟨by decide, glonass_remap_exactly_once true 6 70 (by decide)⟩

lemma tryVE_no_VE (x : PyM Unit) (st : UBXState) (tr : List SinkCall) :
    (tryVE x st tr).2.2 ≠ .error .valueError := by
  unfold tryVE
  rcases x st tr with ⟨st1, tr1, r⟩
  match r with
  | .ok a => simp
  | .error .valueError => simp
  | .error .attributeError => dsimp only; decide
  | .error .checksumError => dsimp only; decide
  | .error .unboundLocalError => dsimp only; decide

/-- Counterexample for C3 as stated: `_process_NAV_STATUS` has no local
catch, so a conversion failure while reading `flags2` propagates out of
`process_data` (and the console write is skipped too): the claim that a
failure inside every extractor, NAV-STATUS included, is caught locally is
false on the code. -/
theorem nav_status_error_escapes :
    process_data ⟨false, false, false, true, true⟩ initState
      (some ⟨[1, 2], 3, 4, .navStatus ⟨.error .valueError⟩⟩)
      = ⟨initState, [], ["NAV-STATUS"], .error .valueError⟩ := by
  simp [process_data, parse, ubxChecksum, foldSteps, handlerTable, dispatchStep,
    Msg.identity, _process_NAV_STATUS, pbind, getF, emit, _update_console]

/-- C3 (amended): a `ValueError` raised inside an extractor that wraps its
body in `try: ... except ValueError` — NAV-POSLLH, NAV-PVT, NAV-VELNED,
NAV-SAT, NAV-SVINFO, NAV-SOL, NAV-DOP, HNR-PVT and MON-VER — never
escapes the handler, and processing of later frames is unaffected: a
NAV-PVT frame whose latitude conversion fails is swallowed locally (the
frame still reaches the console) and the next frame, here a NAV-DOP, is
processed normally.  The handlers without the wrapper (NAV-STATUS,
MON-RF, MON-SPAN) let the failure propagate out of `process_data`. -/
theorem extractor_valueerror_isolated :
    (∀ (f : NavPosllhFields) (cfg : Cfg) (st : UBXState) (tr : List SinkCall),
        (_process_NAV_POSLLH (.navPosllh f) cfg st tr).2.2 ≠ .error .valueError)
    ∧ (∀ (f : NavPvtFields) (cfg : Cfg) (st : UBXState) (tr : List SinkCall),
        (_process_NAV_PVT (.navPvt f) cfg st tr).2.2 ≠ .error .valueError)
    ∧ (∀ (f : NavVelnedFields) (cfg : Cfg) (st : UBXState) (tr : List SinkCall),
        (_process_NAV_VELNED (.navVelned f) cfg st tr).2.2 ≠ .error .valueError)
    ∧ (∀ (f : NavSatFields) (cfg : Cfg) (st : UBXState) (tr : List SinkCall),
        (_process_NAV_SAT (.navSat f) cfg st tr).2.2 ≠ .error .valueError)
    ∧ (∀ (f : NavSvinfoFields) (cfg : Cfg) (st : UBXState) (tr : List SinkCall),
        (_process_NAV_SVINFO (.navSvinfo f) cfg st tr).2.2 ≠ .error .valueError)
    ∧ (∀ (f : NavSolFields) (cfg : Cfg) (st : UBXState) (tr : List SinkCall),
        (_process_NAV_SOL (.navSol f) cfg st tr).2.2 ≠ .error .valueError)
    ∧ (∀ (f : NavDopFields) (cfg : Cfg) (st : UBXState) (tr : List SinkCall),
        (_process_NAV_DOP (.navDop f) cfg st tr).2.2 ≠ .error .valueError)
    ∧ (∀ (f : HnrPvtFields) (cfg : Cfg) (st : UBXState) (tr : List SinkCall),
        (_process_HNR_PVT (.hnrPvt f) cfg st tr).2.2 ≠ .error .valueError)
    ∧ (∀ (cfg : Cfg) (st : UBXState) (tr : List SinkCall),
        (_process_MON_VER .monVer cfg st tr).2.2 ≠ .error .valueError)
    ∧ process_data ⟨false, false, false, true, true⟩ initState
        (some ⟨[1, 2], 3, 4, .navPvt ⟨.ok 0, .error .valueError, .ok 0, .ok 0,
          .ok 0, .ok 0, .ok 0, .ok 0, .ok 0, .ok 0, .ok 0, .ok 0, .ok 0, .ok 0,
          .ok 0, .ok 0, .ok 0⟩⟩)
        = ⟨{ initState with utc := itow2utc 0 },
           [_update_console ⟨false, false, false, true, true⟩], ["NAV-PVT"],
           .ok (some (.navPvt ⟨.ok 0, .error .valueError, .ok 0, .ok 0,
             .ok 0, .ok 0, .ok 0, .ok 0, .ok 0, .ok 0, .ok 0, .ok 0, .ok 0, .ok 0,
             .ok 0, .ok 0, .ok 0⟩))⟩
    ∧ (process_data ⟨false, false, false, true, true⟩
        { initState with utc := itow2utc 0 }
        (some ⟨[1, 2], 3, 4, .navDop ⟨.ok 200, .ok 150, .ok 120⟩⟩)).result
        = .ok (some (.navDop ⟨.ok 200, .ok 150, .ok 120⟩)) := by
  refine ⟨fun f cfg st tr => tryVE_no_VE _ st tr,
    fun f cfg st tr => tryVE_no_VE _ st tr,
    fun f cfg st tr => tryVE_no_VE _ st tr,
    fun f cfg st tr => tryVE_no_VE _ st tr,
    fun f cfg st tr => tryVE_no_VE _ st tr,
    fun f cfg st tr => tryVE_no_VE _ st tr,
    fun f cfg st tr => tryVE_no_VE _ st tr,
    fun f cfg st tr => tryVE_no_VE _ st tr,
    fun cfg st tr => tryVE_no_VE _ st tr, ?_, ?_⟩
  · simp [process_data, parse, ubxChecksum, foldSteps, handlerTable, dispatchStep,
      Msg.identity, _process_NAV_PVT, bodyNAV_PVT, tryVE, pbind, getF, getE,
      modifySt, emitWith, withSt, ppure, numNeEmptyStr, _update_console]
  · simp [process_data, parse, ubxChecksum, foldSteps, handlerTable, dispatchStep,
      Msg.identity, _process_NAV_DOP, bodyNAV_DOP, tryVE, pbind, getF, modifySt,
      emitWith, _update_console]

/-- Witness for the amended C3: the NAV-PVT extractor applied to a message
whose latitude conversion fails does not let the `ValueError` escape. -/
theorem extractor_valueerror_isolated_witness :
    (_process_NAV_PVT (.navPvt ⟨.ok 0, .error .valueError, .ok 0, .ok 0, .ok 0,
        .ok 0, .ok 0, .ok 0, .ok 0, .ok 0, .ok 0, .ok 0, .ok 0, .ok 0, .ok 0,
        .ok 0, .ok 0⟩)
      ⟨false, false, false, true, true⟩ initState []).2.2 ≠ .error .valueError :=
  extractor_valueerror_isolated.2.1
    ⟨.ok 0, .error .valueError, .ok 0, .ok 0, .ok 0, .ok 0, .ok 0, .ok 0, .ok 0,
      .ok 0, .ok 0, .ok 0, .ok 0, .ok 0, .ok 0, .ok 0, .ok 0⟩
    ⟨false, false, false, true, true⟩ initState []

/-- C6 evaluation: the spoofing indicator is the flags2 byte
integer-divided by 8 with no clamping.  Flags byte 16 gives indicator 2
(label "spoofing") and flags byte 31 gives 3 (label "multiple spoof"),
but flags byte 32 gives indicator 4, for which `_draw_jamming` never
binds its `spooftext` local: the display raises `UnboundLocalError`
instead of clamping to the enumeration bound (the rectangle colour alone
is total).  This contradicts the claim that any flags byte is handled by
the spoofing display without an out-of-range failure. -/
theorem nav_status_spoof_eval :
    _process_NAV_STATUS (.navStatus ⟨.ok 16⟩) ⟨false, false, false, true, true⟩
        initState [] = (initState, [.spanSpoof 2], .ok ())
    ∧ drawJammingSpooftext 2 = .ok "spoofing"
    ∧ _process_NAV_STATUS (.navStatus ⟨.ok 31⟩) ⟨false, false, false, true, true⟩
        initState [] = (initState, [.spanSpoof 3], .ok ())
    ∧ drawJammingSpooftext 3 = .ok "multiple spoof"
    ∧ _process_NAV_STATUS (.navStatus ⟨.ok 32⟩) ⟨false, false, false, true, true⟩
        initState [] = (initState, [.spanSpoof 4], .ok ())
    ∧ drawJammingSpooftext 4 = .error .unboundLocalError
    ∧ drawJammingSpoofColor 4 = "red" := by
  refine ⟨?_, by rfl, ?_, by rfl, ?_, by rfl, by rfl⟩
  · simp [_process_NAV_STATUS, pbind, getF, emit]
  · simp [_process_NAV_STATUS, pbind, getF, emit]
  · simp [_process_NAV_STATUS, pbind, getF, emit]

/-- Whether a sink call is a track-recorder call. -/
def isTrackpoint : SinkCall → Bool
  | .trackpoint _ _ _ _ _ _ _ => true
  | _ => false

/-- C9: during NAV-PVT (and HNR-PVT) processing the track recorder is
called exactly when the track-recording flag is enabled and the position
check of the source (`self.lat != ""` and `self.lon != ""`, always true
for the numeric position just stored) passes; the NAV-PVT call passes the
current latitude, longitude and altitude, the ISO-8601 timestamp with a
"Z" suffix, the lower-cased fix label, the satellite count and the pdop,
while the HNR-PVT call omits the satellite count and pdop. -/
theorem trackpoint_iff_record_track (cfg : Cfg) (st st2 : UBXState)
    (f : NavPvtFields) (g : HnrPvtFields)
    (itow la lo hm ha va pd ns gs hd ft yr mo dy hr mi sc : Int)
    (itow2 la2 lo2 hm2 ha2 va2 gs2 hd2 gf2 yr2 mo2 dy2 hr2 mi2 sc2 : Int)
    (iso iso2 : String)
    (h1 : f.iTOW = .ok itow) (h2 : f.lat = .ok la) (h3 : f.lon = .ok lo)
    (h4 : f.hMSL = .ok hm) (h5 : f.hAcc = .ok ha) (h6 : f.vAcc = .ok va)
    (h7 : f.pDOP = .ok pd) (h8 : f.numSV = .ok ns) (h9 : f.gSpeed = .ok gs)
    (h10 : f.headMot = .ok hd) (h11 : f.fixType = .ok ft)
    (h12 : f.year = .ok yr) (h13 : f.month = .ok mo) (h14 : f.day = .ok dy)
    (h15 : f.hour = .ok hr) (h16 : f.min = .ok mi) (h17 : f.second = .ok sc)
    (hiso : pyDatetimeIso yr mo dy hr mi sc = .ok iso)
    (k1 : g.iTOW = .ok itow2) (k2 : g.lat = .ok la2) (k3 : g.lon = .ok lo2)
    (k4 : g.hMSL = .ok hm2) (k5 : g.hAcc = .ok ha2) (k6 : g.vAcc = .ok va2)
    (k7 : g.gSpeed = .ok gs2) (k8 : g.headMot = .ok hd2) (k9 : g.gpsFix = .ok gf2)
    (k12 : g.year = .ok yr2) (k13 : g.month = .ok mo2) (k14 : g.day = .ok dy2)
    (k15 : g.hour = .ok hr2) (k16 : g.min = .ok mi2) (k17 : g.second = .ok sc2)
    (hiso2 : pyDatetimeIso yr2 mo2 dy2 hr2 mi2 sc2 = .ok iso2) :
    ((∃ c ∈ (_process_NAV_PVT (.navPvt f) cfg st []).2.1, isTrackpoint c = true)
      ↔ cfg.record_track = true
        ∧ numNeEmptyStr (_process_NAV_PVT (.navPvt f) cfg st []).1.lat = true
        ∧ numNeEmptyStr (_process_NAV_PVT (.navPvt f) cfg st []).1.lon = true)
    ∧ (cfg.record_track = true →
        SinkCall.trackpoint ((la : Rat) / 10 ^ 7) ((lo : Rat) / 10 ^ 7)
          ((hm : Rat) / 1000) (iso ++ "Z")
          (if gpsfix2str ft == "3D" then "3d"
            else if gpsfix2str ft == "2D" then "2d" else "none")
          (some ns) (some ((pd : Rat) / 100))
          ∈ (_process_NAV_PVT (.navPvt f) cfg st []).2.1)
    ∧ ((∃ c ∈ (_process_HNR_PVT (.hnrPvt g) cfg st2 []).2.1, isTrackpoint c = true)
      ↔ cfg.record_track = true
        ∧ numNeEmptyStr (_process_HNR_PVT (.hnrPvt g) cfg st2 []).1.lat = true
        ∧ numNeEmptyStr (_process_HNR_PVT (.hnrPvt g) cfg st2 []).1.lon = true)
    ∧ (cfg.record_track = true →
        SinkCall.trackpoint ((la2 : Rat) / 10 ^ 7) ((lo2 : Rat) / 10 ^ 7)
          ((hm2 : Rat) / 1000) (iso2 ++ "Z")
          (if gpsfix2str gf2 == "3D" then "3d"
            else if gpsfix2str gf2 == "2D" then "2d" else "none")
          none none
          ∈ (_process_HNR_PVT (.hnrPvt g) cfg st2 []).2.1) := by
  by_cases hrt : cfg.record_track = true
  · refine ⟨?_, ?_, ?_, ?_⟩ <;>
      simp [_process_NAV_PVT, bodyNAV_PVT, _process_HNR_PVT, bodyHNR_PVT, tryVE,
        pbind, getF, getE, modifySt, emitWith, withSt, ppure, numNeEmptyStr,
        isTrackpoint, h1, h2, h3, h4, h5, h6, h7, h8, h9, h10, h11, h12, h13, h14,
        h15, h16, h17, hiso, k1, k2, k3, k4, k5, k6, k7, k8, k9, k12, k13, k14,
        k15, k16, k17, hiso2, hrt]
  · refine ⟨?_, ?_, ?_, ?_⟩ <;>
      simp [_process_NAV_PVT, bodyNAV_PVT, _process_HNR_PVT, bodyHNR_PVT, tryVE,
        pbind, getF, getE, modifySt, emitWith, withSt, ppure, numNeEmptyStr,
        isTrackpoint, h1, h2, h3, h4, h5, h6, h7, h8, h9, h10, h11, h12, h13, h14,
        h15, h16, h17, hiso, k1, k2, k3, k4, k5, k6, k7, k8, k9, k12, k13, k14,
        k15, k16, k17, hiso2, hrt]

/-- Witness for C9: with track recording enabled, a concrete NAV-PVT
frame produces a trackpoint call carrying position, altitude, ISO-8601
time, fix label, satellite count and pdop, and a concrete HNR-PVT frame
produces one without satellite count and pdop. -/
theorem trackpoint_iff_record_track_witness :
    ((∃ c ∈ (_process_NAV_PVT
        (.navPvt ⟨.ok 0, .ok 1, .ok 2, .ok 3000, .ok 0, .ok 0, .ok 200, .ok 8,
          .ok 0, .ok 0, .ok 3, .ok 2021, .ok 4, .ok 21, .ok 12, .ok 0, .ok 0⟩)
        ⟨false, true, false, true, true⟩ initState []).2.1, isTrackpoint c = true)
      ↔ (⟨false, true, false, true, true⟩ : Cfg).record_track = true
        ∧ numNeEmptyStr (_process_NAV_PVT
            (.navPvt ⟨.ok 0, .ok 1, .ok 2, .ok 3000, .ok 0, .ok 0, .ok 200, .ok 8,
              .ok 0, .ok 0, .ok 3, .ok 2021, .ok 4, .ok 21, .ok 12, .ok 0, .ok 0⟩)
            ⟨false, true, false, true, true⟩ initState []).1.lat = true
        ∧ numNeEmptyStr (_process_NAV_PVT
            (.navPvt ⟨.ok 0, .ok 1, .ok 2, .ok 3000, .ok 0, .ok 0, .ok 200, .ok 8,
              .ok 0, .ok 0, .ok 3, .ok 2021, .ok 4, .ok 21, .ok 12, .ok 0, .ok 0⟩)
            ⟨false, true, false, true, true⟩ initState []).1.lon = true)
    ∧ ((⟨false, true, false, true, true⟩ : Cfg).record_track = true →
        SinkCall.trackpoint ((1 : Rat) / 10 ^ 7) ((2 : Rat) / 10 ^ 7)
          ((3000 : Rat) / 1000) ("2021-04-21T12:00:00" ++ "Z")
          (if gpsfix2str 3 == "3D" then "3d"
            else if gpsfix2str 3 == "2D" then "2d" else "none")
          (some 8) (some ((200 : Rat) / 100))
          ∈ (_process_NAV_PVT
            (.navPvt ⟨.ok 0, .ok 1, .ok 2, .ok 3000, .ok 0, .ok 0, .ok 200, .ok 8,
              .ok 0, .ok 0, .ok 3, .ok 2021, .ok 4, .ok 21, .ok 12, .ok 0, .ok 0⟩)
            ⟨false, true, false, true, true⟩ initState []).2.1)
    ∧ ((∃ c ∈ (_process_HNR_PVT
        (.hnrPvt ⟨.ok 0, .ok 1, .ok 2, .ok 3000, .ok 0, .ok 0, .ok 0, .ok 0,
          .ok 2, .ok 2021, .ok 4, .ok 21, .ok 12, .ok 0, .ok 0⟩)
        ⟨false, true, false, true, true⟩ initState []).2.1, isTrackpoint c = true)
      ↔ (⟨false, true, false, true, true⟩ : Cfg).record_track = true
        ∧ numNeEmptyStr (_process_HNR_PVT
            (.hnrPvt ⟨.ok 0, .ok 1, .ok 2, .ok 3000, .ok 0, .ok 0, .ok 0, .ok 0,
              .ok 2, .ok 2021, .ok 4, .ok 21, .ok 12, .ok 0, .ok 0⟩)
            ⟨false, true, false, true, true⟩ initState []).1.lat = true
        ∧ numNeEmptyStr (_process_HNR_PVT
            (.hnrPvt ⟨.ok 0, .ok 1, .ok 2, .ok 3000, .ok 0, .ok 0, .ok 0, .ok 0,
              .ok 2, .ok 2021, .ok 4, .ok 21, .ok 12, .ok 0, .ok 0⟩)
            ⟨false, true, false, true, true⟩ initState []).1.lon = true)
    ∧ ((⟨false, true, false, true, true⟩ : Cfg).record_track = true →
        SinkCall.trackpoint ((1 : Rat) / 10 ^ 7) ((2 : Rat) / 10 ^ 7)
          ((3000 : Rat) / 1000) ("2021-04-21T12:00:00" ++ "Z")
          (if gpsfix2str 2 == "3D" then "3d"
            else if gpsfix2str 2 == "2D" then "2d" else "none")
          none none
          ∈ (_process_HNR_PVT
            (.hnrPvt ⟨.ok 0, .ok 1, .ok 2, .ok 3000, .ok 0, .ok 0, .ok 0, .ok 0,
              .ok 2, .ok 2021, .ok 4, .ok 21, .ok 12, .ok 0, .ok 0⟩)
            ⟨false, true, false, true, true⟩ initState []).2.1) :=
  trackpoint_iff_record_track ⟨false, true, false, true, true⟩ initState initState
    ⟨.ok 0, .ok 1, .ok 2, .ok 3000, .ok 0, .ok 0, .ok 200, .ok 8,
      .ok 0, .ok 0, .ok 3, .ok 2021, .ok 4, .ok 21, .ok 12, .ok 0, .ok 0⟩
    ⟨.ok 0, .ok 1, .ok 2, .ok 3000, .ok 0, .ok 0, .ok 0, .ok 0,
      .ok 2, .ok 2021, .ok 4, .ok 21, .ok 12, .ok 0, .ok 0⟩
    0 1 2 3000 0 0 200 8 0 0 3 2021 4 21 12 0 0
    0 1 2 3000 0 0 0 0 2 2021 4 21 12 0 0
    "2021-04-21T12:00:00" "2021-04-21T12:00:00"
    rfl rfl rfl rfl rfl rfl rfl rfl rfl rfl rfl rfl rfl rfl rfl rfl rfl
    (by rfl)
    rfl rfl rfl rfl rfl rfl rfl rfl rfl rfl rfl rfl rfl rfl rfl
    (by rfl)
